import Mathlib

/-!
Verification of the metricmaster adapter layer.

A shallow embedding of the two tool adapters in
src/metricmaster/tools/fi_google_tag_manager.py and
src/metricmaster/tools/fi_google_analytics_enhanced.py.

Each adapter receives a tool call (operation string plus arguments), talks to
external services (OAuth token fetch, authorization-flow start, the GTM REST
API, a base GA4 reporting integration), mutates a small amount of per-instance
state (cached token and service handle), and returns a response string.

The embedding makes the external world an explicit oracle record, the cached
credential state an explicit state value, and records every outbound external
call in an event trace, so that claims about which calls happen (and in what
state the adapter is left) become statements about pure functions.

The source files store their emoji markers as double-encoded (mojibake) text;
the string literals below reproduce those exact characters, written with
unicode escapes.
-/

namespace MetricMaster

/-! ## Python string primitives -/

/-- Character-list prefix test, the building block for the substring test. -/
def listPre : List Char → List Char → Bool
  | [], _ => true
  | _ :: _, [] => false
  | a :: as, b :: bs => (a = b) && listPre as bs

/-- Character-list contiguous-sublist test. -/
def listSub (n : List Char) : List Char → Bool
  | [] => listPre n []
  | b :: bs => listPre n (b :: bs) || listSub n bs

/-- Python `needle in hay` on strings: contiguous substring test. -/
def strIn (needle hay : String) : Bool := listSub needle.data hay.data

/-- Python `sep.join(l)`. -/
def joinSep (sep : String) : List String → String
  | [] => ""
  | [x] => x
  | x :: xs => x ++ sep ++ joinSep sep xs

/-- Python `"\n".join(l)`, the output assembly used by the list handlers. -/
def joinNl : List String → String := joinSep "\n"

/-- Python f-string rendering of a `.get(key)` result with no default:
an absent key renders as the text None. -/
def pyOpt : Option String → String
  | none => "None"
  | some s => s

/-! ## Shared tool-call model -/

/-- The model-produced argument object of a tool call: the operation string
under the key op (absent when the key is missing) plus whether any other key
is present (so that Python dict truthiness is representable). -/
structure MArgs where
  op : Option String
  hasOtherKeys : Bool
deriving DecidableEq, Repr

/-- Python truthiness of the argument dict: non-empty. -/
def MArgs.truthy (m : MArgs) : Bool := m.op.isSome || m.hasOtherKeys

/-- The confirmed-by-human flag carried by the incoming tool call
(ckit_cloudtool.FCloudtoolCall). -/
structure ToolCall where
  confirmed_by_human : Bool
deriving DecidableEq, Repr

/-- The structured NeedsConfirmation signal raised by mutating handlers
(ckit_cloudtool.NeedsConfirmation). -/
structure NeedsConfirm where
  confirm_setup_key : String
  confirm_command : String
  confirm_explanation : String
deriving DecidableEq, Repr

/-- An HTTP error raised by the google API client
(googleapiclient.errors.HttpError): the response status and the text of the
exception (Python str(e)). -/
structure HttpErr where
  status : Nat
  msg : String
deriving DecidableEq, Repr

/-- Result of running one handler body: a returned string, a propagating
HttpError, a propagating NeedsConfirmation, or a propagating non-HTTP Python
exception (for instance the IndexError reachable in workspace resolution). -/
inductive HRes
  | ok (s : String)
  | httpError (e : HttpErr)
  | needsConfirm (c : NeedsConfirm)
  | pyError
deriving DecidableEq, Repr

/-- Result of a whole called_by_model invocation: the returned string, or a
NeedsConfirmation signal propagating to the host framework, or an uncaught
Python exception escaping the adapter. -/
inductive Outcome
  | ok (s : String)
  | needsConfirm (c : NeedsConfirm)
  | pyError
deriving DecidableEq, Repr

/-! ## GTM adapter: API-shaped data

Response structures mirror the dict shapes the handlers read back from the
Tag Manager v2 API; every field a handler fetches with .get is an Option. -/

structure Param where
  key : String
  type : String
  value : String
deriving DecidableEq, Repr

structure Account where
  name : Option String
  accountId : Option String
deriving DecidableEq, Repr

structure AccountsResp where
  account : Option (List Account)
deriving DecidableEq, Repr

structure Container where
  name : Option String
  containerId : Option String
  publicId : Option String
  usageContext : Option (List String)
  timeZoneId : Option String
deriving DecidableEq, Repr

structure ContainersResp where
  container : Option (List Container)
deriving DecidableEq, Repr

structure Workspace where
  workspaceId : Option String
deriving DecidableEq, Repr

structure WorkspacesResp where
  workspace : Option (List Workspace)
deriving DecidableEq, Repr

structure Tag where
  name : Option String
  tagId : Option String
  type : Option String
deriving DecidableEq, Repr

structure TagsResp where
  tag : Option (List Tag)
deriving DecidableEq, Repr

structure Trigger where
  name : Option String
  triggerId : Option String
  type : Option String
deriving DecidableEq, Repr

structure TriggersResp where
  trigger : Option (List Trigger)
deriving DecidableEq, Repr

structure Variable where
  name : Option String
  variableId : Option String
  type : Option String
deriving DecidableEq, Repr

structure VariablesResp where
  /-- models the response key named variable (a Lean keyword, hence the trailing underscore) -/
  variable_ : Option (List Variable)
deriving DecidableEq, Repr

structure ContainerVersion where
  name : Option String
  containerVersionId : Option String
deriving DecidableEq, Repr

structure VersionResp where
  containerVersion : Option ContainerVersion
deriving DecidableEq, Repr

structure PublishResp where
  containerVersion : Option ContainerVersion
deriving DecidableEq, Repr

/-! Request bodies the handlers assemble for create and publish calls. -/

structure ContainerBody where
  name : String
  usageContext : List String
deriving DecidableEq, Repr

structure TagBody where
  name : String
  type : String
  parameter : List Param
  firingTriggerId : List String
deriving DecidableEq, Repr

structure TriggerBody where
  name : String
  type : String
  filter : List Param
deriving DecidableEq, Repr

structure VariableBody where
  name : String
  type : String
  parameter : List Param
deriving DecidableEq, Repr

structure VersionBody where
  name : String
  notes : String
deriving DecidableEq, Repr

/-- One outbound call to the external Tag Manager API, identified by endpoint
and request data (the handlers build each request path from these fields). -/
inductive GtmCall
  | accountsList
  | containersList (accountId : String)
  | containerGet (accountId containerId : String)
  | containerCreate (accountId : String) (body : ContainerBody)
  | workspacesList (accountId containerId : String)
  | tagsList (accountId containerId workspaceId : String)
  | tagsCreate (accountId containerId workspaceId : String) (body : TagBody)
  | triggersList (accountId containerId workspaceId : String)
  | triggersCreate (accountId containerId workspaceId : String) (body : TriggerBody)
  | variablesList (accountId containerId workspaceId : String)
  | variablesCreate (accountId containerId workspaceId : String) (body : VariableBody)
  | createVersion (accountId containerId workspaceId : String) (body : VersionBody)
  | versionsPublish (accountId containerId versionId : String)
deriving DecidableEq, Repr

/-- An externally observable action of the GTM adapter: fetching an OAuth
token, starting an authorization flow, or one Tag Manager API call. -/
inductive GtmEv
  | getToken
  | startAuthFlow
  | api (c : GtmCall)
deriving DecidableEq, Repr

/-- Whether an event is a Tag Manager API call. -/
def GtmEv.isApi : GtmEv → Bool
  | .api _ => true
  | _ => false

/-- Whether an event is a workspace-listing API call. -/
def GtmEv.isWsList : GtmEv → Bool
  | .api (.workspacesList _ _) => true
  | _ => false

/-- The Tag Manager API as an oracle: the response each endpoint would give
to a request, either a payload or a raised HttpError. -/
structure GtmApi where
  accountsList : Except HttpErr AccountsResp
  containersList : String → Except HttpErr ContainersResp
  containerGet : String → String → Except HttpErr Container
  containerCreate : String → ContainerBody → Except HttpErr Container
  workspacesList : String → String → Except HttpErr WorkspacesResp
  tagsList : String → String → String → Except HttpErr TagsResp
  tagsCreate : String → String → String → TagBody → Except HttpErr Tag
  triggersList : String → String → String → Except HttpErr TriggersResp
  triggersCreate : String → String → String → TriggerBody → Except HttpErr Trigger
  variablesList : String → String → String → Except HttpErr VariablesResp
  variablesCreate : String → String → String → VariableBody → Except HttpErr Variable
  createVersion : String → String → String → VersionBody → Except HttpErr VersionResp
  versionsPublish : String → String → String → Except HttpErr PublishResp

/-- The sanitized argument object seen by the GTM handlers; every field a
handler fetches with args.get is an Option. -/
structure GtmArgs where
  accountId : Option String := none
  containerId : Option String := none
  workspaceId : Option String := none
  containerName : Option String := none
  usageContext : Option (List String) := none
  tagName : Option String := none
  tagType : Option String := none
  parameters : Option (List Param) := none
  firingTriggerId : Option (List String) := none
  triggerName : Option String := none
  triggerType : Option String := none
  filters : Option (List Param) := none
  variableName : Option String := none
  variableType : Option String := none
  value : Option String := none
  versionName : Option String := none
  versionNotes : Option String := none
  versionId : Option String := none
  measurementId : Option String := none
deriving DecidableEq, Repr, Inhabited

/-- Access token plus expiry, as returned by the external auth collaborator. -/
structure TokenData where
  access_token : String
  expires_at : Int
deriving DecidableEq, Repr

/-- The mutable per-instance state of IntegrationGoogleTagManager: the cached
token data and whether a service client is currently constructed. -/
structure GtmState where
  token_data : Option TokenData
  service : Bool
deriving DecidableEq, Repr

/-- Modelled from the spec: the external world of one GTM call. sanitize is
argument sanitization, which lives in the external client-kit
(ckit_cloudtool.sanitize_args); the spec only fixes that it yields the
argument object or an error string. getToken and startAuthFlow are modelled
from the spec: OAuth token acquisition and external-auth-flow initiation are
external collaborators (section 6 of the spec); a raised TransportQueryError
is the error branch, carrying its rendered text. -/
structure GtmEnv where
  now : Int
  getToken : Except String (Option TokenData)
  startAuthFlow : Except String String
  sanitize : MArgs → GtmArgs × Option String
  user : String
  ws : String
  api : GtmApi

/-- The GTM help text (module-level HELP constant in fi_google_tag_manager.py). -/
def HELP : String :=
  ""
  ++ "\n"
  ++ "Help:\n"
  ++ "\n"
  ++ "google_tag_manager(op=\"status\")\n"
  ++ "    Show connection status and available operations.\n"
  ++ "\n"
  ++ "\u0023 Account & Container Operations\n"
  ++ "google_tag_manager(op=\"listAccounts\")\n"
  ++ "    List all GTM accounts you have access to.\n"
  ++ "\n"
  ++ "google_tag_manager(op=\"listContainers\", args=\x7b\"accountId\": \"123456\"\x7d)\n"
  ++ "    List all containers in an account.\n"
  ++ "\n"
  ++ "google_tag_manager(op=\"getContainer\", args=\x7b\"accountId\": \"123456\", \"containerId\": \"789\"\x7d)\n"
  ++ "    Get container details including container snippet code.\n"
  ++ "\n"
  ++ "google_tag_manager(op=\"createContainer\", args=\x7b\n"
  ++ "    \"accountId\": \"123456\",\n"
  ++ "    \"containerName\": \"My Website\",\n"
  ++ "    \"usageContext\": [\"web\"]  \u0023 Options: web, android, ios, amp\n"
  ++ "\x7d)\n"
  ++ "    Create a new GTM container.\n"
  ++ "\n"
  ++ "\u0023 Tag Operations\n"
  ++ "google_tag_manager(op=\"listTags\", args=\x7b\"accountId\": \"123456\", \"containerId\": \"789\", \"workspaceId\": \"10\"\x7d)\n"
  ++ "    List all tags in a workspace (workspaceId defaults to default workspace).\n"
  ++ "\n"
  ++ "google_tag_manager(op=\"createTag\", args=\x7b\n"
  ++ "    \"accountId\": \"123456\",\n"
  ++ "    \"containerId\": \"789\",\n"
  ++ "    \"workspaceId\": \"10\",\n"
  ++ "    \"tagName\": \"GA4 Config\",\n"
  ++ "    \"tagType\": \"gaawe\",  \u0023 Google Analytics: GA4 Event\n"
  ++ "    \"parameters\": [\n"
  ++ "        \x7b\"key\": \"measurementId\", \"type\": \"template\", \"value\": \"G-XXXXXXXXXX\"\x7d\n"
  ++ "    ],\n"
  ++ "    \"firingTriggerId\": [\"2147479553\"]  \u0023 All Pages trigger\n"
  ++ "\x7d)\n"
  ++ "    Create a new tag.\n"
  ++ "\n"
  ++ "\u0023 Trigger Operations\n"
  ++ "google_tag_manager(op=\"listTriggers\", args=\x7b\"accountId\": \"123456\", \"containerId\": \"789\", \"workspaceId\": \"10\"\x7d)\n"
  ++ "    List all triggers in a workspace.\n"
  ++ "\n"
  ++ "google_tag_manager(op=\"createTrigger\", args=\x7b\n"
  ++ "    \"accountId\": \"123456\",\n"
  ++ "    \"containerId\": \"789\",\n"
  ++ "    \"workspaceId\": \"10\",\n"
  ++ "    \"triggerName\": \"Form Submit\",\n"
  ++ "    \"triggerType\": \"formSubmission\",\n"
  ++ "    \"filters\": []\n"
  ++ "\x7d)\n"
  ++ "    Create a new trigger.\n"
  ++ "\n"
  ++ "\u0023 Variable Operations\n"
  ++ "google_tag_manager(op=\"listVariables\", args=\x7b\"accountId\": \"123456\", \"containerId\": \"789\", \"workspaceId\": \"10\"\x7d)\n"
  ++ "    List all variables in a workspace.\n"
  ++ "\n"
  ++ "google_tag_manager(op=\"createVariable\", args=\x7b\n"
  ++ "    \"accountId\": \"123456\",\n"
  ++ "    \"containerId\": \"789\",\n"
  ++ "    \"workspaceId\": \"10\",\n"
  ++ "    \"variableName\": \"GA4 Measurement ID\",\n"
  ++ "    \"variableType\": \"c\",  \u0023 Constant\n"
  ++ "    \"value\": \"G-XXXXXXXXXX\"\n"
  ++ "\x7d)\n"
  ++ "    Create a new variable.\n"
  ++ "\n"
  ++ "\u0023 Version & Publishing\n"
  ++ "google_tag_manager(op=\"createVersion\", args=\x7b\n"
  ++ "    \"accountId\": \"123456\",\n"
  ++ "    \"containerId\": \"789\",\n"
  ++ "    \"workspaceId\": \"10\",\n"
  ++ "    \"versionName\": \"Initial Setup\",\n"
  ++ "    \"versionNotes\": \"Setup GA4 tracking\"\n"
  ++ "\x7d)\n"
  ++ "    Create a container version (draft).\n"
  ++ "\n"
  ++ "google_tag_manager(op=\"publishVersion\", args=\x7b\n"
  ++ "    \"accountId\": \"123456\",\n"
  ++ "    \"containerId\": \"789\",\n"
  ++ "    \"versionId\": \"5\"\n"
  ++ "\x7d)\n"
  ++ "    Publish a container version to production.\n"
  ++ "\n"
  ++ "\u0023 GA4 Integration\n"
  ++ "google_tag_manager(op=\"linkGA4\", args=\x7b\n"
  ++ "    \"accountId\": \"123456\",\n"
  ++ "    \"containerId\": \"789\",\n"
  ++ "    \"workspaceId\": \"10\",\n"
  ++ "    \"measurementId\": \"G-XXXXXXXXXX\"\n"
  ++ "\x7d)\n"
  ++ "    Create GA4 configuration tag and link it to GTM.\n"
  ++ "\n"
  ++ "\u0023 Common Usage Examples:\n"
  ++ "\n"
  ++ "\u0023 1. Get container code snippet\n"
  ++ "google_tag_manager(op=\"getContainer\", args=\x7b\n"
  ++ "    \"accountId\": \"123456\",\n"
  ++ "    \"containerId\": \"789\"\n"
  ++ "\x7d)\n"
  ++ "\n"
  ++ "\u0023 2. Setup GA4 tracking\n"
  ++ "google_tag_manager(op=\"linkGA4\", args=\x7b\n"
  ++ "    \"accountId\": \"123456\",\n"
  ++ "    \"containerId\": \"789\",\n"
  ++ "    \"measurementId\": \"G-XXXXXXXXXX\"\n"
  ++ "\x7d)\n"
  ++ "\n"
  ++ "\u0023 3. Create custom event tag\n"
  ++ "google_tag_manager(op=\"createTag\", args=\x7b\n"
  ++ "    \"accountId\": \"123456\",\n"
  ++ "    \"containerId\": \"789\",\n"
  ++ "    \"tagName\": \"Button Click Event\",\n"
  ++ "    \"tagType\": \"gaawe\",\n"
  ++ "    \"parameters\": [\n"
  ++ "        \x7b\"key\": \"eventName\", \"type\": \"template\", \"value\": \"button_click\"\x7d\n"
  ++ "    ],\n"
  ++ "    \"firingTriggerId\": [\"5\"]\n"
  ++ "\x7d)\n"

/-- The GA4-Enhanced help text (module-level HELP constant in fi_google_analytics_enhanced.py). -/
def GHELP : String :=
  ""
  ++ "\n"
  ++ "Enhanced Google Analytics Help:\n"
  ++ "\n"
  ++ "google_analytics_enhanced(op=\"status\")\n"
  ++ "    Show connection status.\n"
  ++ "\n"
  ++ "\u0023 Event Tracking Setup\n"
  ++ "google_analytics_enhanced(op=\"getEventConfig\", args=\x7b\n"
  ++ "    \"propertyId\": \"123456\",\n"
  ++ "    \"eventName\": \"purchase\"\n"
  ++ "\x7d)\n"
  ++ "    Get configuration for a specific event.\n"
  ++ "\n"
  ++ "google_analytics_enhanced(op=\"listEvents\", args=\x7b\n"
  ++ "    \"propertyId\": \"123456\",\n"
  ++ "    \"dateRange\": \"last7days\"\n"
  ++ "\x7d)\n"
  ++ "    List all events tracked in the property.\n"
  ++ "\n"
  ++ "google_analytics_enhanced(op=\"getEventReport\", args=\x7b\n"
  ++ "    \"propertyId\": \"123456\",\n"
  ++ "    \"eventName\": \"purchase\",\n"
  ++ "    \"dateRange\": \"last30days\",\n"
  ++ "    \"dimensions\": [\"date\", \"eventName\"],\n"
  ++ "    \"metrics\": [\"eventCount\", \"eventValue\"]\n"
  ++ "\x7d)\n"
  ++ "    Get detailed event analytics.\n"
  ++ "\n"
  ++ "\u0023 Conversion Tracking\n"
  ++ "google_analytics_enhanced(op=\"getConversions\", args=\x7b\n"
  ++ "    \"propertyId\": \"123456\",\n"
  ++ "    \"dateRange\": \"last30days\",\n"
  ++ "    \"dimensions\": [\"sessionSource\", \"sessionMedium\"]\n"
  ++ "\x7d)\n"
  ++ "    Get conversion metrics with breakdown.\n"
  ++ "\n"
  ++ "\u0023 E-commerce Tracking\n"
  ++ "google_analytics_enhanced(op=\"getEcommerceReport\", args=\x7b\n"
  ++ "    \"propertyId\": \"123456\",\n"
  ++ "    \"dateRange\": \"last30days\",\n"
  ++ "    \"dimensions\": [\"itemName\", \"itemCategory\"]\n"
  ++ "\x7d)\n"
  ++ "    Get e-commerce performance metrics.\n"
  ++ "\n"
  ++ "\u0023 User Journey & Funnels\n"
  ++ "google_analytics_enhanced(op=\"getUserJourney\", args=\x7b\n"
  ++ "    \"propertyId\": \"123456\",\n"
  ++ "    \"dateRange\": \"last7days\",\n"
  ++ "    \"startPage\": \"/\",\n"
  ++ "    \"endPage\": \"/checkout/complete\"\n"
  ++ "\x7d)\n"
  ++ "    Analyze user journey from start to end page.\n"
  ++ "\n"
  ++ "google_analytics_enhanced(op=\"getFunnelReport\", args=\x7b\n"
  ++ "    \"propertyId\": \"123456\",\n"
  ++ "    \"funnelSteps\": [\n"
  ++ "        \x7b\"name\": \"Home\", \"page\": \"/\"\x7d,\n"
  ++ "        \x7b\"name\": \"Product\", \"page\": \"/product\"\x7d,\n"
  ++ "        \x7b\"name\": \"Cart\", \"page\": \"/cart\"\x7d,\n"
  ++ "        \x7b\"name\": \"Checkout\", \"page\": \"/checkout\"\x7d\n"
  ++ "    ],\n"
  ++ "    \"dateRange\": \"last30days\"\n"
  ++ "\x7d)\n"
  ++ "    Analyze conversion funnel with drop-off rates.\n"
  ++ "\n"
  ++ "\u0023 Custom Reports\n"
  ++ "google_analytics_enhanced(op=\"customQuery\", args=\x7b\n"
  ++ "    \"propertyId\": \"123456\",\n"
  ++ "    \"dateRange\": \"last30days\",\n"
  ++ "    \"metrics\": [\"sessions\", \"conversions\"],\n"
  ++ "    \"dimensions\": [\"deviceCategory\", \"browser\"],\n"
  ++ "    \"filters\": [\n"
  ++ "        \x7b\"field\": \"country\", \"operator\": \"EQUALS\", \"value\": \"United States\"\x7d\n"
  ++ "    ],\n"
  ++ "    \"orderBy\": \x7b\"metric\": \"sessions\", \"desc\": True\x7d,\n"
  ++ "    \"limit\": 50\n"
  ++ "\x7d)\n"
  ++ "    Execute a custom analytics query with filters.\n"
  ++ "\n"
  ++ "\u0023 Recommended Events for Different Industries:\n"
  ++ "\n"
  ++ "E-commerce:\n"
  ++ "- page_view, view_item, add_to_cart, remove_from_cart\n"
  ++ "- begin_checkout, add_payment_info, add_shipping_info\n"
  ++ "- purchase, refund\n"
  ++ "\n"
  ++ "Lead Generation:\n"
  ++ "- page_view, generate_lead, form_submit, sign_up\n"
  ++ "- contact_submit, download_brochure\n"
  ++ "\n"
  ++ "Content/Media:\n"
  ++ "- page_view, video_start, video_progress, video_complete\n"
  ++ "- file_download, search, share\n"
  ++ "\n"
  ++ "SaaS:\n"
  ++ "- page_view, sign_up, login, trial_start\n"
  ++ "- upgrade, feature_usage, subscription_cancel\n"


/-! ## GTM adapter: handlers

Each handler returns its HRes together with the list of Tag Manager API calls
it issued, in order. A .error response from the oracle is the raised
HttpError propagating out of the handler; the vestigial
except HttpError: raise blocks in the source re-raise unchanged and so need no
separate modelling. -/

/-- Reading of the first-workspace lookup
workspaces.get(\x22workspace\x22, [\x7b\x7d])[0].get(\x22workspaceId\x22, \x22\x22):
an absent key falls back to a one-element list of an empty dict (yielding the
empty id); a present but empty list raises IndexError; otherwise the first
entry gives its workspaceId (default empty). -/
def firstWorkspaceId : WorkspacesResp → Option String
  | ⟨none⟩ => some ""
  | ⟨some []⟩ => none
  | ⟨some (w :: _)⟩ => some (w.workspaceId.getD "")

/-- The workspace-resolution block repeated verbatim in the GTM handlers:
when the given workspace id is empty, list workspaces for the container and
take the first entry, otherwise use the given id without any API call. -/
def resolveWs (api : GtmApi) (account_id container_id workspace_id : String) :
    HRes × List GtmEv :=
  if workspace_id = "" then
    match api.workspacesList account_id container_id with
    | .error e => (.httpError e, [.api (.workspacesList account_id container_id)])
    | .ok r =>
      match firstWorkspaceId r with
      | none => (.pyError, [.api (.workspacesList account_id container_id)])
      | some w => (.ok w, [.api (.workspacesList account_id container_id)])
  else (.ok workspace_id, [])

def list_accounts (api : GtmApi) (_args : GtmArgs) : HRes × List GtmEv :=
  match api.accountsList with
  | .error e => (.httpError e, [.api .accountsList])
  | .ok accounts =>
    let l := accounts.account.getD []
    if l.isEmpty then
      (.ok "\uF8FF\u00FC\u00EC\u00B6 No Google Tag Manager accounts found.", [.api .accountsList])
    else
      (.ok (joinNl ("\uF8FF\u00FC\u00EC\u00B6 Google Tag Manager Accounts:\n" ::
        l.map (fun a => "\u201A\u00C4\u00A2 " ++ a.name.getD "Unknown" ++ " (ID: " ++ a.accountId.getD "" ++ ")"))),
       [.api .accountsList])

def list_containers (api : GtmApi) (args : GtmArgs) : HRes × List GtmEv :=
  let account_id := args.accountId.getD ""
  if account_id = "" then
    (.ok "\u201A\u00F9\u00E5 Missing required parameter: \x27accountId\x27", [])
  else
    match api.containersList account_id with
    | .error e => (.httpError e, [.api (.containersList account_id)])
    | .ok containers =>
      let l := containers.container.getD []
      if l.isEmpty then
        (.ok ("\uF8FF\u00FC\u00EC\u00B6 No containers found in account " ++ account_id),
         [.api (.containersList account_id)])
      else
        (.ok (joinNl (("\uF8FF\u00FC\u00EC\u00B6 Containers in Account " ++ account_id ++ ":\n") ::
          (l.map (fun c =>
            ["\u201A\u00C4\u00A2 " ++ c.name.getD "Unknown",
             "  ID: " ++ c.containerId.getD "",
             "  Public ID: " ++ c.publicId.getD "",
             "  Type: " ++ joinSep ", " (c.usageContext.getD []) ++ "\n"])).flatten)),
         [.api (.containersList account_id)])

def get_container (api : GtmApi) (args : GtmArgs) : HRes × List GtmEv :=
  let account_id := args.accountId.getD ""
  let container_id := args.containerId.getD ""
  if account_id = "" ∨ container_id = "" then
    (.ok "\u201A\u00F9\u00E5 Missing required parameters: \x27accountId\x27 and \x27containerId\x27", [])
  else
    match api.containerGet account_id container_id with
    | .error e =>
      if e.status = 404 then
        (.ok ("\u201A\u00F9\u00E5 Container not found: " ++ account_id ++ "/" ++ container_id),
         [.api (.containerGet account_id container_id)])
      else (.httpError e, [.api (.containerGet account_id container_id)])
    | .ok container =>
      (.ok (joinNl [
        "\uF8FF\u00FC\u00EC\u00B6 Container Details:\n",
        "Name: " ++ container.name.getD "Unknown",
        "Container ID: " ++ container.containerId.getD "",
        "Public ID: " ++ container.publicId.getD "",
        "Usage Context: " ++ joinSep ", " (container.usageContext.getD []),
        "Time Zone: " ++ container.timeZoneId.getD "Unknown",
        "\n\uF8FF\u00FC\u00EE\u00DF Container Snippet Code:",
        "\nAdd this to your website\x27s <head> section:",
        "\u0060\u0060\u0060html",
        "<!-- Google Tag Manager -->",
        "<script>(function(w,d,s,l,i)\x7bw[l]=w[l]||[];w[l].push(\x7b\x27gtm.start\x27:",
        "new Date().getTime(),event:\x27gtm.js\x27\x7d);var f=d.getElementsByTagName(s)[0],",
        "j=d.createElement(s),dl=l!=\x27dataLayer\x27?\x27&l=\x27+l:\x27\x27;j.async=true;j.src=",
        "\x27https://www.googletagmanager.com/gtm.js?id=\x27+i+dl;f.parentNode.insertBefore(j,f);",
        "\x7d)(window,document,\x27script\x27,\x27dataLayer\x27,\x27" ++ container.publicId.getD "" ++ "\x27);</script>",
        "<!-- End Google Tag Manager -->",
        "\u0060\u0060\u0060",
        "\nAdd this immediately after opening <body> tag:",
        "\u0060\u0060\u0060html",
        "<!-- Google Tag Manager (noscript) -->",
        "<noscript><iframe src=\"https://www.googletagmanager.com/ns.html?id=" ++ container.publicId.getD "" ++ "\"",
        "height=\"0\" width=\"0\" style=\"display:none;visibility:hidden\"></iframe></noscript>",
        "<!-- End Google Tag Manager (noscript) -->",
        "\u0060\u0060\u0060"]),
       [.api (.containerGet account_id container_id)])

def create_container (api : GtmApi) (tc : ToolCall) (args : GtmArgs) : HRes × List GtmEv :=
  if tc.confirmed_by_human = false then
    (.needsConfirm ⟨"gtm_write",
      "create container: " ++ args.containerName.getD "",
      "This will create a new GTM container in your account"⟩, [])
  else
    let account_id := args.accountId.getD ""
    let container_name := args.containerName.getD ""
    let usage_context := args.usageContext.getD ["web"]
    if account_id = "" ∨ container_name = "" then
      (.ok "\u201A\u00F9\u00E5 Missing required parameters: \x27accountId\x27 and \x27containerName\x27", [])
    else
      match api.containerCreate account_id ⟨container_name, usage_context⟩ with
      | .error e => (.httpError e, [.api (.containerCreate account_id ⟨container_name, usage_context⟩)])
      | .ok container =>
        (.ok ("\u201A\u00FA\u00D6 Created container: " ++ pyOpt container.name
              ++ " (ID: " ++ pyOpt container.containerId ++ ")"),
         [.api (.containerCreate account_id ⟨container_name, usage_context⟩)])

def list_tags (api : GtmApi) (args : GtmArgs) : HRes × List GtmEv :=
  let account_id := args.accountId.getD ""
  let container_id := args.containerId.getD ""
  let workspace_id := args.workspaceId.getD ""
  if account_id = "" ∨ container_id = "" then
    (.ok "\u201A\u00F9\u00E5 Missing required parameters: \x27accountId\x27 and \x27containerId\x27", [])
  else
    match resolveWs api account_id container_id workspace_id with
    | (.ok wid, tr) =>
      (match api.tagsList account_id container_id wid with
       | .error e => (.httpError e, tr ++ [.api (.tagsList account_id container_id wid)])
       | .ok tags =>
         let l := tags.tag.getD []
         let tr2 := tr ++ [.api (.tagsList account_id container_id wid)]
         if l.isEmpty then
           (.ok ("\uF8FF\u00FC\u00E8\u2211\u00D4\u220F\u00E8 No tags found in workspace " ++ wid), tr2)
         else
           (.ok (joinNl (("\uF8FF\u00FC\u00E8\u2211\u00D4\u220F\u00E8 Tags in Workspace " ++ wid ++ ":\n") ::
             l.map (fun t => "\u201A\u00C4\u00A2 " ++ t.name.getD "Unknown" ++ " (ID: " ++ t.tagId.getD ""
               ++ ", Type: " ++ t.type.getD "" ++ ")"))), tr2))
    | (r, tr) => (r, tr)

def create_tag (api : GtmApi) (tc : ToolCall) (args : GtmArgs) : HRes × List GtmEv :=
  if tc.confirmed_by_human = false then
    (.needsConfirm ⟨"gtm_write",
      "create tag: " ++ args.tagName.getD "",
      "This will create a new tag in GTM"⟩, [])
  else
    let account_id := args.accountId.getD ""
    let container_id := args.containerId.getD ""
    let workspace_id := args.workspaceId.getD ""
    let tag_name := args.tagName.getD ""
    let tag_type := args.tagType.getD ""
    let parameters := args.parameters.getD []
    let firing_trigger_id := args.firingTriggerId.getD []
    if account_id = "" ∨ container_id = "" ∨ tag_name = "" ∨ tag_type = "" then
      (.ok "\u201A\u00F9\u00E5 Missing required parameters: \x27accountId\x27, \x27containerId\x27, \x27tagName\x27, \x27tagType\x27", [])
    else
      match resolveWs api account_id container_id workspace_id with
      | (.ok wid, tr) =>
        (match api.tagsCreate account_id container_id wid ⟨tag_name, tag_type, parameters, firing_trigger_id⟩ with
         | .error e => (.httpError e, tr ++ [.api (.tagsCreate account_id container_id wid ⟨tag_name, tag_type, parameters, firing_trigger_id⟩)])
         | .ok tag =>
           (.ok ("\u201A\u00FA\u00D6 Created tag: " ++ pyOpt tag.name ++ " (ID: " ++ pyOpt tag.tagId ++ ")"),
            tr ++ [.api (.tagsCreate account_id container_id wid ⟨tag_name, tag_type, parameters, firing_trigger_id⟩)]))
      | (r, tr) => (r, tr)

def list_triggers (api : GtmApi) (args : GtmArgs) : HRes × List GtmEv :=
  let account_id := args.accountId.getD ""
  let container_id := args.containerId.getD ""
  let workspace_id := args.workspaceId.getD ""
  if account_id = "" ∨ container_id = "" then
    (.ok "\u201A\u00F9\u00E5 Missing required parameters: \x27accountId\x27 and \x27containerId\x27", [])
  else
    match resolveWs api account_id container_id workspace_id with
    | (.ok wid, tr) =>
      (match api.triggersList account_id container_id wid with
       | .error e => (.httpError e, tr ++ [.api (.triggersList account_id container_id wid)])
       | .ok triggers =>
         let l := triggers.trigger.getD []
         let tr2 := tr ++ [.api (.triggersList account_id container_id wid)]
         if l.isEmpty then
           (.ok ("\u201A\u00F6\u00B0 No triggers found in workspace " ++ wid), tr2)
         else
           (.ok (joinNl (("\u201A\u00F6\u00B0 Triggers in Workspace " ++ wid ++ ":\n") ::
             l.map (fun t => "\u201A\u00C4\u00A2 " ++ t.name.getD "Unknown" ++ " (ID: " ++ t.triggerId.getD ""
               ++ ", Type: " ++ t.type.getD "" ++ ")"))), tr2))
    | (r, tr) => (r, tr)

def create_trigger (api : GtmApi) (tc : ToolCall) (args : GtmArgs) : HRes × List GtmEv :=
  if tc.confirmed_by_human = false then
    (.needsConfirm ⟨"gtm_write",
      "create trigger: " ++ args.triggerName.getD "",
      "This will create a new trigger in GTM"⟩, [])
  else
    let account_id := args.accountId.getD ""
    let container_id := args.containerId.getD ""
    let workspace_id := args.workspaceId.getD ""
    let trigger_name := args.triggerName.getD ""
    let trigger_type := args.triggerType.getD ""
    let filters := args.filters.getD []
    if account_id = "" ∨ container_id = "" ∨ trigger_name = "" ∨ trigger_type = "" then
      (.ok "\u201A\u00F9\u00E5 Missing required parameters: \x27accountId\x27, \x27containerId\x27, \x27triggerName\x27, \x27triggerType\x27", [])
    else
      match resolveWs api account_id container_id workspace_id with
      | (.ok wid, tr) =>
        (match api.triggersCreate account_id container_id wid ⟨trigger_name, trigger_type, filters⟩ with
         | .error e => (.httpError e, tr ++ [.api (.triggersCreate account_id container_id wid ⟨trigger_name, trigger_type, filters⟩)])
         | .ok trigger =>
           (.ok ("\u201A\u00FA\u00D6 Created trigger: " ++ pyOpt trigger.name
                 ++ " (ID: " ++ pyOpt trigger.triggerId ++ ")"),
            tr ++ [.api (.triggersCreate account_id container_id wid ⟨trigger_name, trigger_type, filters⟩)]))
      | (r, tr) => (r, tr)

def list_variables (api : GtmApi) (args : GtmArgs) : HRes × List GtmEv :=
  let account_id := args.accountId.getD ""
  let container_id := args.containerId.getD ""
  let workspace_id := args.workspaceId.getD ""
  if account_id = "" ∨ container_id = "" then
    (.ok "\u201A\u00F9\u00E5 Missing required parameters: \x27accountId\x27 and \x27containerId\x27", [])
  else
    match resolveWs api account_id container_id workspace_id with
    | (.ok wid, tr) =>
      (match api.variablesList account_id container_id wid with
       | .error e => (.httpError e, tr ++ [.api (.variablesList account_id container_id wid)])
       | .ok varsResp =>
         let l := varsResp.variable_.getD []
         let tr2 := tr ++ [.api (.variablesList account_id container_id wid)]
         if l.isEmpty then
           (.ok ("\uF8FF\u00FC\u00EC\u00E4 No variables found in workspace " ++ wid), tr2)
         else
           (.ok (joinNl (("\uF8FF\u00FC\u00EC\u00E4 Variables in Workspace " ++ wid ++ ":\n") ::
             l.map (fun v => "\u201A\u00C4\u00A2 " ++ v.name.getD "Unknown" ++ " (ID: " ++ v.variableId.getD ""
               ++ ", Type: " ++ v.type.getD "" ++ ")"))), tr2))
    | (r, tr) => (r, tr)

def create_variable (api : GtmApi) (tc : ToolCall) (args : GtmArgs) : HRes × List GtmEv :=
  if tc.confirmed_by_human = false then
    (.needsConfirm ⟨"gtm_write",
      "create variable: " ++ args.variableName.getD "",
      "This will create a new variable in GTM"⟩, [])
  else
    let account_id := args.accountId.getD ""
    let container_id := args.containerId.getD ""
    let workspace_id := args.workspaceId.getD ""
    let variable_name := args.variableName.getD ""
    let variable_type := args.variableType.getD ""
    let value := args.value.getD ""
    if account_id = "" ∨ container_id = "" ∨ variable_name = "" ∨ variable_type = "" then
      (.ok "\u201A\u00F9\u00E5 Missing required parameters: \x27accountId\x27, \x27containerId\x27, \x27variableName\x27, \x27variableType\x27", [])
    else
      match resolveWs api account_id container_id workspace_id with
      | (.ok wid, tr) =>
        (match api.variablesCreate account_id container_id wid
            ⟨variable_name, variable_type, if value = "" then [] else [⟨"value", "template", value⟩]⟩ with
         | .error e => (.httpError e, tr ++ [.api (.variablesCreate account_id container_id wid
             ⟨variable_name, variable_type, if value = "" then [] else [⟨"value", "template", value⟩]⟩)])
         | .ok v =>
           (.ok ("\u201A\u00FA\u00D6 Created variable: " ++ pyOpt v.name
                 ++ " (ID: " ++ pyOpt v.variableId ++ ")"),
            tr ++ [.api (.variablesCreate account_id container_id wid
              ⟨variable_name, variable_type, if value = "" then [] else [⟨"value", "template", value⟩]⟩)]))
      | (r, tr) => (r, tr)

def create_version (api : GtmApi) (tc : ToolCall) (args : GtmArgs) : HRes × List GtmEv :=
  if tc.confirmed_by_human = false then
    (.needsConfirm ⟨"gtm_write",
      "create version: " ++ args.versionName.getD "",
      "This will create a new container version"⟩, [])
  else
    let account_id := args.accountId.getD ""
    let container_id := args.containerId.getD ""
    let workspace_id := args.workspaceId.getD ""
    let version_name := args.versionName.getD ""
    let version_notes := args.versionNotes.getD ""
    if account_id = "" ∨ container_id = "" then
      (.ok "\u201A\u00F9\u00E5 Missing required parameters: \x27accountId\x27 and \x27containerId\x27", [])
    else
      match resolveWs api account_id container_id workspace_id with
      | (.ok wid, tr) =>
        (match api.createVersion account_id container_id wid ⟨version_name, version_notes⟩ with
         | .error e => (.httpError e, tr ++ [.api (.createVersion account_id container_id wid ⟨version_name, version_notes⟩)])
         | .ok version =>
           (.ok ("\u201A\u00FA\u00D6 Created version: " ++ pyOpt (version.containerVersion.bind (fun cv => cv.name))
                 ++ " (ID: " ++ pyOpt (version.containerVersion.bind (fun cv => cv.containerVersionId)) ++ ")"),
            tr ++ [.api (.createVersion account_id container_id wid ⟨version_name, version_notes⟩)]))
      | (r, tr) => (r, tr)

def publish_version (api : GtmApi) (tc : ToolCall) (args : GtmArgs) : HRes × List GtmEv :=
  if tc.confirmed_by_human = false then
    (.needsConfirm ⟨"gtm_publish",
      "publish version " ++ args.versionId.getD "",
      "This will publish the container version to PRODUCTION"⟩, [])
  else
    let account_id := args.accountId.getD ""
    let container_id := args.containerId.getD ""
    let version_id := args.versionId.getD ""
    if account_id = "" ∨ container_id = "" ∨ version_id = "" then
      (.ok "\u201A\u00F9\u00E5 Missing required parameters: \x27accountId\x27, \x27containerId\x27, \x27versionId\x27", [])
    else
      match api.versionsPublish account_id container_id version_id with
      | .error e => (.httpError e, [.api (.versionsPublish account_id container_id version_id)])
      | .ok published =>
        (.ok ("\u201A\u00FA\u00D6 Published version to production: "
              ++ pyOpt (published.containerVersion.bind (fun cv => cv.name))),
         [.api (.versionsPublish account_id container_id version_id)])

def link_ga4 (api : GtmApi) (tc : ToolCall) (args : GtmArgs) : HRes × List GtmEv :=
  if tc.confirmed_by_human = false then
    (.needsConfirm ⟨"gtm_write",
      "link GA4 measurement ID: " ++ args.measurementId.getD "",
      "This will create GA4 configuration tag in GTM"⟩, [])
  else
    let account_id := args.accountId.getD ""
    let container_id := args.containerId.getD ""
    let workspace_id := args.workspaceId.getD ""
    let measurement_id := args.measurementId.getD ""
    if account_id = "" ∨ container_id = "" ∨ measurement_id = "" then
      (.ok "\u201A\u00F9\u00E5 Missing required parameters: \x27accountId\x27, \x27containerId\x27, \x27measurementId\x27", [])
    else
      match resolveWs api account_id container_id workspace_id with
      | (.ok wid, tr) =>
        (match api.triggersList account_id container_id wid with
         | .error e => (.httpError e, tr ++ [.api (.triggersList account_id container_id wid)])
         | .ok triggers =>
           let tr2 := tr ++ [.api (.triggersList account_id container_id wid)]
           let all_pages_trigger_id : Option String :=
             ((triggers.trigger.getD []).find? (fun t => t.type == some "pageview")).bind
               (fun t => t.triggerId)
           if all_pages_trigger_id.getD "" = "" then
             (.ok "\u201A\u00F9\u00E5 Could not find \x27All Pages\x27 trigger. Create a pageview trigger first.", tr2)
           else
             match api.tagsCreate account_id container_id wid
                 ⟨"GA4 Configuration", "gaawe",
                  [⟨"measurementId", "template", measurement_id⟩],
                  [all_pages_trigger_id.getD ""]⟩ with
             | .error e => (.httpError e, tr2 ++ [.api (.tagsCreate account_id container_id wid
                 ⟨"GA4 Configuration", "gaawe",
                  [⟨"measurementId", "template", measurement_id⟩],
                  [all_pages_trigger_id.getD ""]⟩)])
             | .ok tag =>
               (.ok ("\u201A\u00FA\u00D6 Created GA4 configuration tag: " ++ pyOpt tag.name
                     ++ " (ID: " ++ pyOpt tag.tagId
                     ++ ")\n\nGA4 is now linked to GTM. Create a version and publish to make it live."),
                tr2 ++ [.api (.tagsCreate account_id container_id wid
                 ⟨"GA4 Configuration", "gaawe",
                  [⟨"measurementId", "template", measurement_id⟩],
                  [all_pages_trigger_id.getD ""]⟩)]))
      | (r, tr) => (r, tr)

/-! ## GTM adapter: dispatcher -/

/-- Lazy service initialization (_ensure_service): the cached service is kept
while the cached token has more than 60 seconds of validity left; otherwise a
fresh token is fetched; a TransportQueryError or an absent token yields
unauthenticated, and on success a new service client is built. -/
def ensure_service (env : GtmEnv) (st : GtmState) : Bool × GtmState × List GtmEv :=
  if st.service && (match st.token_data with
                    | some td => decide (env.now < td.expires_at - 60)
                    | none => false) then
    (true, st, [])
  else
    match env.getToken with
    | .error _ => (false, st, [.getToken])
    | .ok none => (false, { st with token_data := none }, [.getToken])
    | .ok (some td) => (true, { token_data := some td, service := true }, [.getToken])

/-- The status text of the GTM adapter, including the authorization URL (or
the OAuth initiation failure) when unauthenticated. -/
def gtm_status_text (env : GtmEnv) (authenticated : Bool) : String × List GtmEv :=
  let r := "Google Tag Manager integration status:\n"
    ++ "  Authenticated: " ++ (if authenticated then "\u201A\u00FA\u00D6 Yes" else "\u201A\u00F9\u00E5 No") ++ "\n"
    ++ "  User: " ++ env.user ++ "\n"
    ++ "  Workspace: " ++ env.ws ++ "\n"
  if authenticated then (r, [])
  else
    match env.startAuthFlow with
    | .ok auth_url =>
      (r ++ "\n\u201A\u00F9\u00E5 Not authenticated. Ask user to authorize at:\n" ++ auth_url ++ "\n",
       [.startAuthFlow])
    | .error e =>
      (r ++ "\n\u201A\u00F9\u00E5 Error initiating OAuth: " ++ e ++ "\n", [.startAuthFlow])

/-- The exact-operation-name dispatch of the GTM adapter; unknown names fall
to the final error string. -/
def gtm_dispatch (api : GtmApi) (tc : ToolCall) (args : GtmArgs) (op : String) :
    HRes × List GtmEv :=
  if op = "listAccounts" then list_accounts api args
  else if op = "listContainers" then list_containers api args
  else if op = "getContainer" then get_container api args
  else if op = "createContainer" then create_container api tc args
  else if op = "listTags" then list_tags api args
  else if op = "createTag" then create_tag api tc args
  else if op = "listTriggers" then list_triggers api args
  else if op = "createTrigger" then create_trigger api tc args
  else if op = "listVariables" then list_variables api args
  else if op = "createVariable" then create_variable api tc args
  else if op = "createVersion" then create_version api tc args
  else if op = "publishVersion" then publish_version api tc args
  else if op = "linkGA4" then link_ga4 api tc args
  else
    (.ok ("\u201A\u00F9\u00E5 Unknown operation: " ++ op
          ++ "\n\nTry google_tag_manager(op=\x27help\x27) for usage."), [])

/-- called_by_model of IntegrationGoogleTagManager: absent or empty arguments
return the help text; otherwise sanitize, authenticate, handle the help and
status pseudo-operations, dispatch, and translate a raised HttpError (401/403
clears the cached token and service and returns an authorization prompt;
other statuses return a formatted error string). -/
def gtm_called_by_model (env : GtmEnv) (st : GtmState) (tc : ToolCall)
    (margs : Option MArgs) : Outcome × GtmState × List GtmEv :=
  match margs with
  | none => (.ok HELP, st, [])
  | some m =>
    if m.truthy = false then (.ok HELP, st, [])
    else
      let op := m.op.getD ""
      match env.sanitize m with
      | (_, some args_error) => (.ok args_error, st, [])
      | (args, none) =>
        let print_help := op = "" || strIn "help" op
        let print_status := op = "" || strIn "status" op
        let es := ensure_service env st
        let authenticated := es.1
        let st1 := es.2.1
        let ev1 := es.2.2
        if print_status then
          let rs := gtm_status_text env authenticated
          (.ok rs.1, st1, ev1 ++ rs.2)
        else if print_help then (.ok HELP, st1, ev1)
        else if authenticated = false then
          match env.startAuthFlow with
          | .ok auth_url =>
            (.ok ("\u201A\u00F9\u00E5 Not authenticated. Ask user to authorize at:\n" ++ auth_url
                  ++ "\n\nThen retry this operation."), st1, ev1 ++ [.startAuthFlow])
          | .error e =>
            (.ok ("\u201A\u00F9\u00E5 Failed to initiate OAuth: " ++ e), st1, ev1 ++ [.startAuthFlow])
        else
          match gtm_dispatch env.api tc args op with
          | (.ok s, tr) => (.ok s, st1, ev1 ++ tr)
          | (.needsConfirm c, tr) => (.needsConfirm c, st1, ev1 ++ tr)
          | (.pyError, tr) => (.pyError, st1, ev1 ++ tr)
          | (.httpError e, tr) =>
            if e.status = 401 ∨ e.status = 403 then
              match env.startAuthFlow with
              | .ok auth_url =>
                (.ok ("\u201A\u00F9\u00E5 Google Tag Manager authentication error: " ++ toString e.status
                      ++ "\n\nPlease authorize at:\n" ++ auth_url ++ "\n\nThen retry."),
                 ⟨none, false⟩, ev1 ++ tr ++ [.startAuthFlow])
              | .error _ => (.pyError, ⟨none, false⟩, ev1 ++ tr ++ [.startAuthFlow])
            else
              (.ok ("\u201A\u00F9\u00E5 Google Tag Manager API error: " ++ toString e.status ++ " - " ++ e.msg),
               st1, ev1 ++ tr)

/-! ## GA4-Enhanced adapter

The enhanced adapter layers fixed query templates over a base GA4 reporting
integration that lives in the external client-kit. The base integration
(its _ensure_services, called_by_model and _get_report) is an oracle. -/

structure OrderBy where
  metric : String
  desc : Bool
deriving DecidableEq, Repr

/-- One funnel step dict: name and page, each optional. -/
structure FStep where
  name : Option String
  page : Option String
deriving DecidableEq, Repr

/-- The base_args dict each enhanced handler assembles and passes to the base
report call; keys a template omits stay none. -/
structure ReportReq where
  propertyId : String
  dateRange : String
  metrics : List String
  dimensions : List String
  orderBy : Option OrderBy := none
  limit : Option Nat := none
  startDate : Option String := none
  endDate : Option String := none
deriving DecidableEq, Repr

/-- A Python exception raised by the base report call: HTTP status when it is
an API error, and its rendered text (str(e)). -/
structure PyErr where
  status : Option Nat
  msg : String
deriving DecidableEq, Repr

/-- The sanitized argument object seen by the enhanced handlers. -/
structure GaArgs where
  propertyId : Option String := none
  eventName : Option String := none
  dateRange : Option String := none
  metrics : Option (List String) := none
  dimensions : Option (List String) := none
  orderBy : Option OrderBy := none
  limit : Option Nat := none
  startPage : Option String := none
  endPage : Option String := none
  funnelSteps : Option (List FStep) := none
  filters : Option (List Param) := none
  startDate : Option String := none
  endDate : Option String := none
deriving DecidableEq, Repr, Inhabited

/-- An externally observable action of the enhanced adapter: the base
integration's service check, a delegation to the base called_by_model, or one
base report call. -/
inductive GaEv
  | baseEnsure
  | baseCalled
  | report (r : ReportReq)
deriving DecidableEq, Repr

/-- Whether an event is a base report call. -/
def GaEv.isReport : GaEv → Bool
  | .report _ => true
  | _ => false

/-- Modelled from the spec: the external world of one enhanced call. The
base GA4 integration (fi_google_analytics, external client-kit)
supplies _ensure_services, called_by_model and _get_report; sanitize is the
external ckit_cloudtool.sanitize_args; reprFilters is the Python rendering of
the filters list inside an f-string. -/
structure GaEnv where
  sanitize : MArgs → GaArgs × Option String
  ensureServices : Bool
  baseCalled : String
  getReport : ReportReq → Except PyErr String
  reprFilters : List Param → String
  user : String

/-- Modelled from the spec: the per-instance credential/service cache. The
credential/service handle is owned by the base integration (external); the
enhanced adapter holds no cache of its own and its code never writes one. -/
structure GaState where
  baseServiceCached : Bool
deriving DecidableEq, Repr

def get_event_config (env : GaEnv) (args : GaArgs) : Except PyErr String × List GaEv :=
  let property_id := args.propertyId.getD ""
  let event_name := args.eventName.getD ""
  if property_id = "" ∨ event_name = "" then
    (.ok "\u00E2\u0152 Missing required parameters: \x27propertyId\x27 and \x27eventName\x27", [])
  else
    let base_args : ReportReq :=
      { propertyId := property_id, dateRange := "last7days",
        metrics := ["eventCount"], dimensions := ["eventName"] }
    match env.getReport base_args with
    | .error e => (.error e, [.report base_args])
    | .ok result =>
      if strIn event_name result then
        (.ok ("\u00E2\u0153\u2026 Event \x27" ++ event_name ++ "\x27 is being tracked.\n\n" ++ result),
         [.report base_args])
      else
        (.ok ("\u00E2\u0161\u00A0\u00EF\u00B8 Event \x27" ++ event_name
              ++ "\x27 not found in recent data. It may not be tracked yet or has no data in the last 7 days."),
         [.report base_args])

def list_events (env : GaEnv) (args : GaArgs) : Except PyErr String × List GaEv :=
  let property_id := args.propertyId.getD ""
  let date_range := args.dateRange.getD "last7days"
  if property_id = "" then
    (.ok "\u00E2\u0152 Missing required parameter: \x27propertyId\x27", [])
  else
    let base_args : ReportReq :=
      { propertyId := property_id, dateRange := date_range,
        metrics := ["eventCount", "eventValue"], dimensions := ["eventName"],
        orderBy := some ⟨"eventCount", true⟩, limit := some 50 }
    match env.getReport base_args with
    | .error e => (.error e, [.report base_args])
    | .ok result => (.ok result, [.report base_args])

def get_event_report (env : GaEnv) (args : GaArgs) : Except PyErr String × List GaEv :=
  let property_id := args.propertyId.getD ""
  let _event_name := args.eventName.getD ""
  if property_id = "" then
    (.ok "\u00E2\u0152 Missing required parameter: \x27propertyId\x27", [])
  else
    let base_args : ReportReq :=
      { propertyId := property_id, dateRange := args.dateRange.getD "last30days",
        metrics := args.metrics.getD ["eventCount", "eventValue"],
        dimensions := args.dimensions.getD ["date", "eventName"],
        orderBy := some ⟨"eventCount", true⟩ }
    match env.getReport base_args with
    | .error e => (.error e, [.report base_args])
    | .ok result => (.ok result, [.report base_args])

def get_conversions (env : GaEnv) (args : GaArgs) : Except PyErr String × List GaEv :=
  let property_id := args.propertyId.getD ""
  if property_id = "" then
    (.ok "\u00E2\u0152 Missing required parameter: \x27propertyId\x27", [])
  else
    let base_args : ReportReq :=
      { propertyId := property_id, dateRange := args.dateRange.getD "last30days",
        metrics := ["conversions", "totalRevenue", "sessions"],
        dimensions := args.dimensions.getD ["sessionSource", "sessionMedium"],
        orderBy := some ⟨"conversions", true⟩, limit := some 20 }
    match env.getReport base_args with
    | .error e => (.error e, [.report base_args])
    | .ok result => (.ok result, [.report base_args])

def get_ecommerce_report (env : GaEnv) (args : GaArgs) : Except PyErr String × List GaEv :=
  let property_id := args.propertyId.getD ""
  if property_id = "" then
    (.ok "\u00E2\u0152 Missing required parameter: \x27propertyId\x27", [])
  else
    let base_args : ReportReq :=
      { propertyId := property_id, dateRange := args.dateRange.getD "last30days",
        metrics := ["itemRevenue", "itemsPurchased", "itemsViewed"],
        dimensions := args.dimensions.getD ["itemName", "itemCategory"],
        orderBy := some ⟨"itemRevenue", true⟩, limit := some 30 }
    match env.getReport base_args with
    | .error e => (.error e, [.report base_args])
    | .ok result => (.ok result, [.report base_args])

def get_user_journey (env : GaEnv) (args : GaArgs) : Except PyErr String × List GaEv :=
  let property_id := args.propertyId.getD ""
  let start_page := args.startPage.getD "/"
  let end_page := args.endPage.getD ""
  if property_id = "" then
    (.ok "\u00E2\u0152 Missing required parameter: \x27propertyId\x27", [])
  else
    let base_args : ReportReq :=
      { propertyId := property_id, dateRange := args.dateRange.getD "last7days",
        metrics := ["screenPageViews", "sessions"],
        dimensions := ["pagePath", "pageTitle"],
        orderBy := some ⟨"screenPageViews", true⟩, limit := some 100 }
    match env.getReport base_args with
    | .error e => (.error e, [.report base_args])
    | .ok result =>
      (.ok ("\u011F\u0178\u201D User Journey Analysis\n\nPages visited between \x27" ++ start_page
            ++ "\x27 and \x27" ++ end_page ++ "\x27:\n\n" ++ result
            ++ "\n\nNote: Full path analysis requires custom implementation with GA4 Data API."),
       [.report base_args])

/-- The funnel loop body: one base report call per declared step, collecting
the two formatted output lines per step (1-based enumeration). -/
def funnel_steps_loop (env : GaEnv) (property_id date_range : String) :
    Nat → List FStep → Except PyErr (List String) × List GaEv
  | _, [] => (.ok [], [])
  | i, step :: rest =>
    let step_name := step.name.getD ("Step " ++ toString i)
    let step_page := step.page.getD ""
    let base_args : ReportReq :=
      { propertyId := property_id, dateRange := date_range,
        metrics := ["screenPageViews", "sessions"], dimensions := ["pagePath"] }
    match env.getReport base_args with
    | .error e => (.error e, [.report base_args])
    | .ok _step_result =>
      match funnel_steps_loop env property_id date_range (i + 1) rest with
      | (.error e, tr) => (.error e, .report base_args :: tr)
      | (.ok lines, tr) =>
        (.ok (("\n" ++ toString i ++ ". " ++ step_name ++ " (" ++ step_page ++ ")")
              :: "   Users: [analyzing...]" :: lines),
         .report base_args :: tr)

def get_funnel_report (env : GaEnv) (args : GaArgs) : Except PyErr String × List GaEv :=
  let property_id := args.propertyId.getD ""
  let funnel_steps := args.funnelSteps.getD []
  if property_id = "" ∨ funnel_steps.isEmpty then
    (.ok "\u00E2\u0152 Missing required parameters: \x27propertyId\x27 and \x27funnelSteps\x27", [])
  else
    match funnel_steps_loop env property_id (args.dateRange.getD "last30days") 1 funnel_steps with
    | (.error e, tr) => (.error e, tr)
    | (.ok lines, tr) =>
      (.ok (joinNl (("\u011F\u0178\u201C\u0160 Funnel Analysis:\n" :: lines)
            ++ ["\n\nNote: Full funnel analysis with drop-off rates requires GA4 Funnel Exploration API."])),
       tr)

def custom_query (env : GaEnv) (args : GaArgs) : Except PyErr String × List GaEv :=
  let property_id := args.propertyId.getD ""
  if property_id = "" then
    (.ok "\u00E2\u0152 Missing required parameter: \x27propertyId\x27", [])
  else
    let base0 : ReportReq :=
      { propertyId := property_id, dateRange := args.dateRange.getD "last30days",
        metrics := args.metrics.getD ["sessions"], dimensions := args.dimensions.getD [],
        orderBy := args.orderBy, limit := some (args.limit.getD 100) }
    let base_args :=
      if args.startDate.getD "" ≠ "" ∧ args.endDate.getD "" ≠ "" then
        { base0 with startDate := args.startDate, endDate := args.endDate, dateRange := "custom" }
      else base0
    match env.getReport base_args with
    | .error e => (.error e, [.report base_args])
    | .ok result =>
      let filters := args.filters.getD []
      (.ok (if filters.isEmpty then result
            else result ++ "\n\nNote: Filters applied: " ++ env.reprFilters filters),
       [.report base_args])

/-- The exact-operation-name dispatch of the enhanced adapter; unknown names
fall to the final error string. -/
def ga_dispatch (env : GaEnv) (args : GaArgs) (op : String) :
    Except PyErr String × List GaEv :=
  if op = "getEventConfig" then get_event_config env args
  else if op = "listEvents" then list_events env args
  else if op = "getEventReport" then get_event_report env args
  else if op = "getConversions" then get_conversions env args
  else if op = "getEcommerceReport" then get_ecommerce_report env args
  else if op = "getUserJourney" then get_user_journey env args
  else if op = "getFunnelReport" then get_funnel_report env args
  else if op = "customQuery" then custom_query env args
  else
    (.ok ("\u00E2\u0152 Unknown operation: " ++ op
          ++ "\n\nTry google_analytics_enhanced(op=\x27help\x27) for usage."), [])

/-- called_by_model of IntegrationGoogleAnalyticsEnhanced: absent or empty
arguments return the help text; otherwise sanitize, check the base
integration services, handle the help and status pseudo-operations (status
delegates to the base adapter when unauthenticated), delegate to the base
adapter when unauthenticated, dispatch, and catch every raised exception as a
formatted error string. The state is returned unchanged on every path: the
enhanced dispatcher never touches the cached credential/service. -/
def ga_called_by_model (env : GaEnv) (st : GaState) (margs : Option MArgs) :
    Outcome × GaState × List GaEv :=
  match margs with
  | none => (.ok GHELP, st, [])
  | some m =>
    if m.truthy = false then (.ok GHELP, st, [])
    else
      let op := m.op.getD ""
      match env.sanitize m with
      | (_, some args_error) => (.ok args_error, st, [])
      | (args, none) =>
        let print_help := op = "" || strIn "help" op
        let print_status := op = "" || strIn "status" op
        let authenticated := env.ensureServices
        if print_status then
          let r := "Google Analytics Enhanced integration status:\n"
            ++ "  Authenticated: " ++ (if authenticated then "\u00E2\u0153\u2026 Yes" else "\u00E2\u0152 No") ++ "\n"
            ++ "  User: " ++ env.user ++ "\n"
          if authenticated = false then (.ok env.baseCalled, st, [.baseEnsure, .baseCalled])
          else (.ok r, st, [.baseEnsure])
        else if print_help then (.ok GHELP, st, [.baseEnsure])
        else if authenticated = false then (.ok env.baseCalled, st, [.baseEnsure, .baseCalled])
        else
          match ga_dispatch env args op with
          | (.ok s, tr) => (.ok s, st, .baseEnsure :: tr)
          | (.error e, tr) => (.ok ("\u00E2\u0152 Error: " ++ e.msg), st, .baseEnsure :: tr)


/-! ## Trace observations and concrete fixtures -/

/-- The Tag Manager API calls within a trace. -/
def apiEvents (l : List GtmEv) : List GtmEv := l.filter GtmEv.isApi

/-- How many workspace-listing API calls a trace holds. -/
def wsCount (l : List GtmEv) : Nat := (l.filter GtmEv.isWsList).length

/-- Authentication emits no Tag Manager API call. -/
theorem ensure_service_no_api (env : GtmEnv) (st : GtmState) :
    apiEvents (ensure_service env st).2.2 = [] := by
  unfold ensure_service
  split
  · rfl
  · cases env.getToken with
    | error e => rfl
    | ok o => cases o <;> rfl

/-- A stub Tag Manager API answering every endpoint successfully. -/
def apiOk : GtmApi where
  accountsList := .ok ⟨some [⟨some "Acme", some "1"⟩]⟩
  containersList := fun _ => .ok ⟨some [⟨some "Test", some "2", some "GTM-XXXX", some ["web"], some "UTC"⟩]⟩
  containerGet := fun _ _ => .ok ⟨some "Test", some "2", some "GTM-XXXX", some ["web"], some "UTC"⟩
  containerCreate := fun _ b => .ok ⟨some b.name, some "2", none, some b.usageContext, none⟩
  workspacesList := fun _ _ => .ok ⟨some [⟨some "7"⟩, ⟨some "8"⟩]⟩
  tagsList := fun _ _ _ => .ok ⟨some [⟨some "T1", some "11", some "gaawe"⟩]⟩
  tagsCreate := fun _ _ _ b => .ok ⟨some b.name, some "12", some b.type⟩
  triggersList := fun _ _ _ => .ok ⟨some [⟨some "All Pages", some "21", some "pageview"⟩]⟩
  triggersCreate := fun _ _ _ b => .ok ⟨some b.name, some "22", some b.type⟩
  variablesList := fun _ _ _ => .ok ⟨some [⟨some "V1", some "31", some "c"⟩]⟩
  variablesCreate := fun _ _ _ b => .ok ⟨some b.name, some "32", some b.type⟩
  createVersion := fun _ _ _ b => .ok ⟨some ⟨some b.name, some "5"⟩⟩
  versionsPublish := fun _ _ _ => .ok ⟨some ⟨some "V", some "5"⟩⟩

/-- A stub Tag Manager API raising 403 on every endpoint. -/
def api403 : GtmApi where
  accountsList := .error ⟨403, "forbidden"⟩
  containersList := fun _ => .error ⟨403, "forbidden"⟩
  containerGet := fun _ _ => .error ⟨403, "forbidden"⟩
  containerCreate := fun _ _ => .error ⟨403, "forbidden"⟩
  workspacesList := fun _ _ => .error ⟨403, "forbidden"⟩
  tagsList := fun _ _ _ => .error ⟨403, "forbidden"⟩
  tagsCreate := fun _ _ _ _ => .error ⟨403, "forbidden"⟩
  triggersList := fun _ _ _ => .error ⟨403, "forbidden"⟩
  triggersCreate := fun _ _ _ _ => .error ⟨403, "forbidden"⟩
  variablesList := fun _ _ _ => .error ⟨403, "forbidden"⟩
  variablesCreate := fun _ _ _ _ => .error ⟨403, "forbidden"⟩
  createVersion := fun _ _ _ _ => .error ⟨403, "forbidden"⟩
  versionsPublish := fun _ _ _ => .error ⟨403, "forbidden"⟩

/-- A full set of sanitized GTM arguments for the fixtures. -/
def argsFull : GtmArgs :=
  { accountId := some "1", containerId := some "2",
    containerName := some "My Website", usageContext := some ["web"],
    tagName := some "GA4 Config", tagType := some "gaawe",
    parameters := some [], firingTriggerId := some [],
    triggerName := some "Form Submit", triggerType := some "formSubmission",
    filters := some [],
    variableName := some "GA4 Measurement ID", variableType := some "c",
    value := some "G-X",
    versionName := some "Initial Setup", versionNotes := some "notes",
    versionId := some "5", measurementId := some "G-XXXXXXXXXX" }

/-- A GTM environment around a stub API whose sanitize step yields the given
arguments, with a valid-token supply and a fixed authorization URL. -/
def mkGtmEnv (api : GtmApi) (sargs : GtmArgs) : GtmEnv where
  now := 0
  getToken := .ok (some ⟨"tok", 1000000⟩)
  startAuthFlow := .ok "https://auth.example/flow"
  sanitize := fun _ => (sargs, none)
  user := "user1"
  ws := "ws1"
  api := api

/-- A state whose cached token is still valid at time 0. -/
def stAuth : GtmState := ⟨some ⟨"tok", 1000000⟩, true⟩


/-! ## Claim theorems -/

/-- C8: calling either adapter with an absent or empty argument object returns
that adapter's full help text verbatim, leaves the cached state untouched,
and performs no external call of any kind (no authentication attempt, no API
call, no base-integration call). -/
theorem c8_empty_args_help (genv : GtmEnv) (gst : GtmState) (tc : ToolCall)
    (aenv : GaEnv) (ast : GaState) (m : MArgs) (hm : m.truthy = false) :
    gtm_called_by_model genv gst tc none = (.ok HELP, gst, []) ∧
    gtm_called_by_model genv gst tc (some m) = (.ok HELP, gst, []) ∧
    ga_called_by_model aenv ast none = (.ok GHELP, ast, []) ∧
    ga_called_by_model aenv ast (some m) = (.ok GHELP, ast, []) := by
  refine ⟨rfl, ?_, rfl, ?_⟩ <;> simp [gtm_called_by_model, ga_called_by_model, hm]

/-- A GA4-Enhanced environment fixture for the witnesses (base authenticated,
every base report succeeding with a fixed text). -/
def gaArgsW : GaArgs :=
  { propertyId := some "1", eventName := some "purchase",
    funnelSteps := some [⟨some "Home", some "/"⟩] }

def gaEnvOk : GaEnv where
  sanitize := fun _ => (gaArgsW, none)
  ensureServices := true
  baseCalled := "BASE"
  getReport := fun _ => .ok "eventName in_app_purchase eventCount 5"
  reprFilters := fun _ => ""
  user := "user1"

theorem c8_empty_args_help_witness :
    MArgs.truthy ⟨none, false⟩ = false ∧
    gtm_called_by_model (mkGtmEnv apiOk argsFull) stAuth ⟨true⟩ (some ⟨none, false⟩) =
      (.ok HELP, stAuth, []) ∧
    ga_called_by_model gaEnvOk ⟨true⟩ (some ⟨none, false⟩) = (.ok GHELP, ⟨true⟩, []) :=
  ⟨rfl, (c8_empty_args_help (mkGtmEnv apiOk argsFull) stAuth ⟨true⟩ gaEnvOk ⟨true⟩ ⟨none, false⟩ rfl).2.1,
   (c8_empty_args_help (mkGtmEnv apiOk argsFull) stAuth ⟨true⟩ gaEnvOk ⟨true⟩ ⟨none, false⟩ rfl).2.2.2⟩


/-- The mutating GTM operations, gated on human confirmation. -/
def mutatingOps : List String :=
  ["createContainer", "createTag", "createTrigger", "createVariable",
   "createVersion", "publishVersion", "linkGA4"]

/-- C1: every mutating GTM operation invoked without the confirmed-by-human
flag makes the handler raise the structured NeedsConfirmation signal before
any argument validation (the arguments here are arbitrary, possibly missing
every required field) and before any Tag Manager API call: the whole
invocation trace contains no API call. -/
theorem c1_confirmation_gate (env : GtmEnv) (st : GtmState) (tc : ToolCall)
    (m : MArgs) (op : String) (args : GtmArgs) (st1 : GtmState) (ev1 : List GtmEv)
    (hop : m.op = some op) (hmut : op ∈ mutatingOps)
    (hconf : tc.confirmed_by_human = false)
    (hsan : env.sanitize m = (args, none))
    (hens : ensure_service env st = (true, st1, ev1)) :
    (∃ c, gtm_called_by_model env st tc (some m) = (.needsConfirm c, st1, ev1)) ∧
    apiEvents ev1 = [] := by
  have hapi : apiEvents ev1 = [] := by
    have h := ensure_service_no_api env st
    rw [hens] at h; exact h
  refine ⟨?_, hapi⟩
  simp only [mutatingOps, List.mem_cons, List.not_mem_nil, or_false] at hmut
  rcases hmut with rfl | rfl | rfl | rfl | rfl | rfl | rfl <;>
    exact ⟨_, by simp +decide [gtm_called_by_model, MArgs.truthy, hop, hsan, hens, gtm_dispatch,
      create_container, create_tag, create_trigger, create_variable,
      create_version, publish_version, link_ga4, hconf]; rfl⟩


theorem c1_confirmation_gate_witness :
    (⟨some "createTag", true⟩ : MArgs).op = some "createTag" ∧
    "createTag" ∈ mutatingOps ∧
    (⟨false⟩ : ToolCall).confirmed_by_human = false ∧
    (mkGtmEnv apiOk argsFull).sanitize ⟨some "createTag", true⟩ = (argsFull, none) ∧
    ensure_service (mkGtmEnv apiOk argsFull) stAuth = (true, stAuth, []) ∧
    ((∃ c, gtm_called_by_model (mkGtmEnv apiOk argsFull) stAuth ⟨false⟩
        (some ⟨some "createTag", true⟩) = (.needsConfirm c, stAuth, [])) ∧
      apiEvents [] = []) :=
  ⟨rfl, by decide, rfl, rfl, by decide,
   c1_confirmation_gate (mkGtmEnv apiOk argsFull) stAuth ⟨false⟩ ⟨some "createTag", true⟩
     "createTag" argsFull stAuth [] rfl (by decide) rfl rfl (by decide)⟩

/-- The environment of the C2 counterexample: the base integration is
authenticated and its cached service present, and every base report call
raises an API error with HTTP status 403. -/
def gaEnv403 : GaEnv where
  sanitize := fun _ => (gaArgsW, none)
  ensureServices := true
  baseCalled := "BASE"
  getReport := fun _ => .error ⟨some 403, "HttpError 403"⟩
  reprFilters := fun _ => ""
  user := "user1"

/-- C2, counterexample: a getEventConfig call whose handler raises an API
error with HTTP status 403 yields the generic formatted error string, and the
cached credential/service state is returned unchanged (still cached): the
enhanced dispatcher neither invalidates the cache nor returns an
authorization prompt. -/
theorem c2_counterexample :
    ga_called_by_model gaEnv403 ⟨true⟩ (some ⟨some "getEventConfig", true⟩) =
      (.ok "âŒ Error: HttpError 403", ⟨true⟩,
       [.baseEnsure, .report ⟨"1", "last7days", ["eventCount"], ["eventName"], none, none, none, none⟩]) := by
  decide

/-- C2, amended: in the GA4-Enhanced dispatcher, a handler raising any
exception (in particular an API error with HTTP status 401 or 403) is caught
and surfaced as a formatted error string built from the exception text, and
the cached credential/service state is returned unchanged: unlike the GTM
adapter, the enhanced dispatcher performs no invalidation and returns no
authorization prompt. -/
theorem c2_ga_error_surfaced (env : GaEnv) (st : GaState) (m : MArgs) (op : String)
    (args : GaArgs) (e : PyErr) (tr : List GaEv)
    (hop : m.op = some op) (hne : op ≠ "")
    (hh : strIn "help" op = false) (hs : strIn "status" op = false)
    (hsan : env.sanitize m = (args, none))
    (hauth : env.ensureServices = true)
    (hdisp : ga_dispatch env args op = (.error e, tr)) :
    ga_called_by_model env st (some m) =
      (.ok ("âŒ Error: " ++ e.msg), st, .baseEnsure :: tr) := by
  simp [ga_called_by_model, MArgs.truthy, hop, hsan, hauth, hh, hs, hne, hdisp]

theorem c2_ga_error_surfaced_witness :
    ga_dispatch gaEnv403 gaArgsW "getEventConfig" =
      (.error ⟨some 403, "HttpError 403"⟩,
       [.report ⟨"1", "last7days", ["eventCount"], ["eventName"], none, none, none, none⟩]) ∧
    ga_called_by_model gaEnv403 ⟨true⟩ (some ⟨some "getEventConfig", true⟩) =
      (.ok ("âŒ Error: " ++ "HttpError 403"), ⟨true⟩,
       .baseEnsure :: [.report ⟨"1", "last7days", ["eventCount"], ["eventName"], none, none, none, none⟩]) :=
  ⟨rfl,
   c2_ga_error_surfaced gaEnv403 ⟨true⟩ ⟨some "getEventConfig", true⟩ "getEventConfig"
     gaArgsW ⟨some 403, "HttpError 403"⟩ _ rfl (by decide) (by decide) (by decide) rfl rfl rfl⟩

/-- C3: in the GTM dispatcher, a handler raising an HttpError with status 401
or 403 clears both the cached token and the cached service and returns the
authentication-error string holding a freshly generated authorization URL, so
that any later call must re-attempt authentication (its token fetch happens
unconditionally from the cleared state); any other status returns the
formatted API-error string, leaves the cached credential/service exactly as
authentication left it, and issues no further call (the trace is exactly the
authentication events, the handler's own calls and, in the 401/403 case, the
authorization-flow start). -/
theorem c3_gtm_http_error_handling (env : GtmEnv) (st : GtmState) (tc : ToolCall)
    (m : MArgs) (op : String) (args : GtmArgs) (e : HttpErr) (tr : List GtmEv)
    (st1 : GtmState) (ev1 : List GtmEv) (auth_url : String)
    (hop : m.op = some op) (hne : op ≠ "")
    (hh : strIn "help" op = false) (hs : strIn "status" op = false)
    (hsan : env.sanitize m = (args, none))
    (hens : ensure_service env st = (true, st1, ev1))
    (hdisp : gtm_dispatch env.api tc args op = (.httpError e, tr))
    (hurl : env.startAuthFlow = .ok auth_url) :
    (e.status = 401 ∨ e.status = 403 →
      gtm_called_by_model env st tc (some m) =
        (.ok ("‚ùå Google Tag Manager authentication error: " ++ toString e.status
              ++ "\n\nPlease authorize at:\n" ++ auth_url ++ "\n\nThen retry."),
         ⟨none, false⟩, ev1 ++ tr ++ [.startAuthFlow]) ∧
      ∀ env2 : GtmEnv, (ensure_service env2 ⟨none, false⟩).2.2 = [.getToken]) ∧
    (e.status ≠ 401 → e.status ≠ 403 →
      gtm_called_by_model env st tc (some m) =
        (.ok ("‚ùå Google Tag Manager API error: " ++ toString e.status ++ " - " ++ e.msg),
         st1, ev1 ++ tr)) := by
  constructor
  · intro h401
    constructor
    · simp [gtm_called_by_model, MArgs.truthy, hop, hsan, hens, hdisp, hurl, hh, hs, hne, h401]
    · intro env2
      unfold ensure_service
      simp only [GtmState.mk.injEq, Bool.false_and, Bool.and_self]
      cases henv : env2.getToken with
      | error e2 => simp [henv]
      | ok o => cases o <;> simp [henv]
  · intro h1 h2
    simp [gtm_called_by_model, MArgs.truthy, hop, hsan, hens, hdisp, hh, hs, hne, h1, h2]

theorem c3_gtm_http_error_handling_witness :
    gtm_dispatch (mkGtmEnv api403 argsFull).api ⟨true⟩ argsFull "listAccounts" =
      (.httpError ⟨403, "forbidden"⟩, [.api .accountsList]) ∧
    ensure_service (mkGtmEnv api403 argsFull) stAuth = (true, stAuth, []) ∧
    gtm_called_by_model (mkGtmEnv api403 argsFull) stAuth ⟨true⟩ (some ⟨some "listAccounts", true⟩) =
      (.ok ("‚ùå Google Tag Manager authentication error: " ++ toString 403
            ++ "\n\nPlease authorize at:\nhttps://auth.example/flow\n\nThen retry."),
       ⟨none, false⟩, [] ++ [.api .accountsList] ++ [.startAuthFlow]) :=
  ⟨by decide, by decide,
   ((c3_gtm_http_error_handling (mkGtmEnv api403 argsFull) stAuth ⟨true⟩
       ⟨some "listAccounts", true⟩ "listAccounts" argsFull ⟨403, "forbidden"⟩
       [.api .accountsList] stAuth [] "https://auth.example/flow"
       rfl (by decide) (by decide) (by decide) rfl (by decide) (by decide) rfl).1
     (Or.inr rfl)).1⟩

/-- The full set of operation names the GTM dispatcher recognizes. -/
def gtmOps : List String :=
  ["listAccounts", "listContainers", "getContainer", "createContainer",
   "listTags", "createTag", "listTriggers", "createTrigger",
   "listVariables", "createVariable", "createVersion", "publishVersion", "linkGA4"]

/-- The full set of operation names the GA4-Enhanced dispatcher recognizes. -/
def gaOps : List String :=
  ["getEventConfig", "listEvents", "getEventReport", "getConversions",
   "getEcommerceReport", "getUserJourney", "getFunnelReport", "customQuery"]

/-- C4: an authenticated call to either adapter whose operation string is
non-empty, contains neither help nor status, and is not one of the adapter's
known operation names returns the unknown-operation message referencing the
help operation; no exception escapes (the outcome is an ordinary string) and
no API call is made. -/
theorem c4_unknown_operation (genv : GtmEnv) (gst : GtmState) (tc : ToolCall)
    (aenv : GaEnv) (ast : GaState) (m : MArgs) (op : String)
    (gargs : GtmArgs) (aargs : GaArgs) (gst1 : GtmState) (gev1 : List GtmEv)
    (hop : m.op = some op) (hne : op ≠ "")
    (hh : strIn "help" op = false) (hs : strIn "status" op = false)
    (hg : op ∉ gtmOps) (ha : op ∉ gaOps)
    (hgs : genv.sanitize m = (gargs, none)) (has : aenv.sanitize m = (aargs, none))
    (hens : ensure_service genv gst = (true, gst1, gev1))
    (haens : aenv.ensureServices = true) :
    gtm_called_by_model genv gst tc (some m) =
      (.ok ("‚ùå Unknown operation: " ++ op
            ++ "\n\nTry google_tag_manager(op=\x27help\x27) for usage."), gst1, gev1) ∧
    ga_called_by_model aenv ast (some m) =
      (.ok ("âŒ Unknown operation: " ++ op
            ++ "\n\nTry google_analytics_enhanced(op=\x27help\x27) for usage."), ast, [.baseEnsure]) := by
  simp only [gtmOps, gaOps, List.mem_cons, List.not_mem_nil, or_false, not_or] at hg ha
  obtain ⟨g1, g2, g3, g4, g5, g6, g7, g8, g9, g10, g11, g12, g13⟩ := hg
  obtain ⟨a1, a2, a3, a4, a5, a6, a7, a8⟩ := ha
  constructor
  · simp [gtm_called_by_model, MArgs.truthy, hop, hgs, hens, gtm_dispatch,
      hh, hs, hne, g1, g2, g3, g4, g5, g6, g7, g8, g9, g10, g11, g12, g13]
  · simp [ga_called_by_model, MArgs.truthy, hop, has, haens, ga_dispatch,
      hh, hs, hne, a1, a2, a3, a4, a5, a6, a7, a8]

theorem c4_unknown_operation_witness :
    ("listEverything" ∉ gtmOps) ∧ ("listEverything" ∉ gaOps) ∧
    strIn "help" "listEverything" = false ∧ strIn "status" "listEverything" = false ∧
    gtm_called_by_model (mkGtmEnv apiOk argsFull) stAuth ⟨true⟩ (some ⟨some "listEverything", true⟩) =
      (.ok ("‚ùå Unknown operation: listEverything"
            ++ "\n\nTry google_tag_manager(op=\x27help\x27) for usage."), stAuth, []) :=
  ⟨by decide, by decide, by decide, by decide, by
    have h := c4_unknown_operation (mkGtmEnv apiOk argsFull) stAuth ⟨true⟩ gaEnvOk ⟨true⟩
      ⟨some "listEverything", true⟩ "listEverything" argsFull gaArgsW stAuth []
      rfl (by decide) (by decide) (by decide) (by decide) (by decide) rfl rfl (by decide) rfl
    exact h.1⟩

set_option maxRecDepth 20000 in
/-- C6, counterexample: a call whose non-empty operation string contains help
but also contains status (here the operation is the text: status help) does
not return the help text: the status branch is checked first and wins. -/
theorem c6_counterexample :
    strIn "help" "status help" = true ∧
    MArgs.truthy ⟨some "status help", true⟩ = true ∧
    (gtm_called_by_model (mkGtmEnv apiOk argsFull) stAuth ⟨true⟩
        (some ⟨some "status help", true⟩)).1 ≠ .ok HELP := by
  refine ⟨by decide, by decide, by decide⟩

/-- C6, amended: a call to either adapter with a non-empty argument object
that sanitizes without error and whose operation string contains help but not
status returns the full help text. -/
theorem c6_help_operation (genv : GtmEnv) (gst : GtmState) (tc : ToolCall)
    (aenv : GaEnv) (ast : GaState) (m : MArgs) (op : String)
    (gargs : GtmArgs) (aargs : GaArgs)
    (hop : m.op = some op)
    (hh : strIn "help" op = true) (hs : strIn "status" op = false)
    (hgs : genv.sanitize m = (gargs, none)) (has : aenv.sanitize m = (aargs, none)) :
    (gtm_called_by_model genv gst tc (some m)).1 = .ok HELP ∧
    (ga_called_by_model aenv ast (some m)).1 = .ok GHELP := by
  have hne : op ≠ "" := by rintro rfl; exact absurd hh (by decide)
  constructor
  · simp [gtm_called_by_model, MArgs.truthy, hop, hgs, hh, hs, hne]
  · simp [ga_called_by_model, MArgs.truthy, hop, has, hh, hs, hne]

theorem c6_help_operation_witness :
    strIn "help" "helpMe" = true ∧ strIn "status" "helpMe" = false ∧
    (gtm_called_by_model (mkGtmEnv apiOk argsFull) stAuth ⟨true⟩
        (some ⟨some "helpMe", true⟩)).1 = .ok HELP ∧
    (ga_called_by_model gaEnvOk ⟨true⟩ (some ⟨some "helpMe", true⟩)).1 = .ok GHELP :=
  ⟨by decide, by decide,
   (c6_help_operation (mkGtmEnv apiOk argsFull) stAuth ⟨true⟩ gaEnvOk ⟨true⟩
      ⟨some "helpMe", true⟩ "helpMe" argsFull gaArgsW rfl (by decide) (by decide) rfl rfl).1,
   (c6_help_operation (mkGtmEnv apiOk argsFull) stAuth ⟨true⟩ gaEnvOk ⟨true⟩
      ⟨some "helpMe", true⟩ "helpMe" argsFull gaArgsW rfl (by decide) (by decide) rfl rfl).2⟩


/-! ## Substring test correctness -/

theorem listPre_iff : ∀ (n l : List Char), listPre n l = true ↔ ∃ q, l = n ++ q
  | [], l => by simp [listPre]
  | _ :: _, [] => by simp [listPre]
  | a :: as, b :: bs => by
    simp only [listPre, Bool.and_eq_true, decide_eq_true_eq, listPre_iff as bs,
      List.cons_append, List.cons.injEq]
    constructor
    · rintro ⟨rfl, q, rfl⟩; exact ⟨q, rfl, rfl⟩
    · rintro ⟨q, rfl, rfl⟩; exact ⟨rfl, q, rfl⟩

theorem listSub_iff : ∀ (n l : List Char), listSub n l = true ↔ ∃ p q, l = p ++ n ++ q
  | n, [] => by
    simp only [listSub, listPre_iff]
    constructor
    · rintro ⟨q, hq⟩; exact ⟨[], q, by simpa using hq⟩
    · rintro ⟨p, q, hq⟩
      refine ⟨q, ?_⟩
      rcases List.append_eq_nil.mp hq.symm with ⟨h1, h2⟩
      rcases List.append_eq_nil.mp h1 with ⟨rfl, rfl⟩
      simp [h2]
  | n, b :: bs => by
    simp only [listSub, Bool.or_eq_true, listPre_iff, listSub_iff n bs]
    constructor
    · rintro (⟨q, hq⟩ | ⟨p, q, hq⟩)
      · exact ⟨[], q, by simpa using hq⟩
      · exact ⟨b :: p, q, by simp [hq]⟩
    · rintro ⟨p, q, hq⟩
      cases p with
      | nil => exact Or.inl ⟨q, by simpa using hq⟩
      | cons x xs =>
        refine Or.inr ⟨xs, q, ?_⟩
        have := (List.cons.injEq x (xs ++ n ++ q) b bs).mp (by simpa using hq.symm)
        exact this.2.symm

/-- Python in on strings holds exactly when the needle occurs contiguously:
the haystack splits as prefix ++ needle ++ suffix. -/
theorem strIn_iff (n h : String) :
    strIn n h = true ↔ ∃ p q : List Char, h.data = p ++ n.data ++ q :=
  listSub_iff n.data h.data

/-- C10: getEventConfig decides tracking by a plain substring test on the
formatted report text: whenever the base report succeeds with text R, the
operation answers with the tracked message exactly when the event name occurs
contiguously anywhere inside R (it answers with the not-found message
otherwise); occurring inside another event name or any other report text is
enough. -/
theorem c10_event_config_substring (env : GaEnv) (args : GaArgs)
    (property_id event_name R : String)
    (hp : args.propertyId.getD "" = property_id) (hp0 : property_id ≠ "")
    (he : args.eventName.getD "" = event_name) (he0 : event_name ≠ "")
    (hr : env.getReport { propertyId := property_id, dateRange := "last7days", metrics := ["eventCount"], dimensions := ["eventName"] } = .ok R) :
    ((∃ p q : List Char, R.data = p ++ event_name.data ++ q) →
      get_event_config env args =
        (.ok ("âœ… Event \x27" ++ event_name ++ "\x27 is being tracked.\n\n" ++ R),
         [.report { propertyId := property_id, dateRange := "last7days", metrics := ["eventCount"], dimensions := ["eventName"] }])) ∧
    ((¬ ∃ p q : List Char, R.data = p ++ event_name.data ++ q) →
      get_event_config env args =
        (.ok ("âš ï¸ Event \x27" ++ event_name
              ++ "\x27 not found in recent data. It may not be tracked yet or has no data in the last 7 days."),
         [.report { propertyId := property_id, dateRange := "last7days", metrics := ["eventCount"], dimensions := ["eventName"] }])) := by
  constructor
  · intro hsub
    have hin : strIn event_name R = true := (strIn_iff _ _).mpr hsub
    simp [get_event_config, hp, hp0, he, he0, hr, hin]
  · intro hsub
    have hin : strIn event_name R = false := by
      cases hcase : strIn event_name R with
      | true => exact absurd ((strIn_iff _ _).mp hcase) hsub
      | false => rfl
    simp [get_event_config, hp, hp0, he, he0, hr, hin]

theorem c10_event_config_substring_witness :
    gaEnvOk.getReport { propertyId := "1", dateRange := "last7days", metrics := ["eventCount"], dimensions := ["eventName"] } =
      .ok "eventName in_app_purchase eventCount 5" ∧
    get_event_config gaEnvOk gaArgsW =
      (.ok ("âœ… Event \x27purchase\x27 is being tracked.\n\neventName in_app_purchase eventCount 5"),
       [.report { propertyId := "1", dateRange := "last7days", metrics := ["eventCount"], dimensions := ["eventName"] }]) :=
  ⟨rfl,
   (c10_event_config_substring gaEnvOk gaArgsW "1" "purchase"
      "eventName in_app_purchase eventCount 5" rfl (by decide) rfl (by decide) rfl).1
     ((strIn_iff "purchase" "eventName in_app_purchase eventCount 5").mp (by decide))⟩


/-- Resolution with an omitted workspace id: one workspace-listing call,
yielding the first workspace of the response. -/
theorem resolveWs_omitted (api : GtmApi) (aid cid : String) (wr : WorkspacesResp) (w : String)
    (hws : api.workspacesList aid cid = .ok wr) (hfw : firstWorkspaceId wr = some w) :
    resolveWs api aid cid "" = (.ok w, [.api (.workspacesList aid cid)]) := by
  simp [resolveWs, hws, hfw]

/-- Resolution with a supplied workspace id: no API call at all. -/
theorem resolveWs_given (api : GtmApi) (aid cid wid : String) (h : wid ≠ "") :
    resolveWs api aid cid wid = (.ok wid, []) := by
  simp [resolveWs, h]

/-- C9: the linkGA4 handler, confirmed and fully supplied, creates the GA4
configuration tag only when the workspace has a trigger of type pageview:
with none present it returns the could-not-find error and issues no
tag-creation call (the trace stops at the trigger listing); with the first
pageview trigger carrying a usable id, that id becomes the firing trigger of
the created tag. -/
theorem c9_link_ga4_pageview (api : GtmApi) (tc : ToolCall) (args : GtmArgs)
    (aid cid mid wid : String) (tresp : TriggersResp)
    (hconf : tc.confirmed_by_human = true)
    (haid : args.accountId.getD "" = aid) (haid0 : aid ≠ "")
    (hcid : args.containerId.getD "" = cid) (hcid0 : cid ≠ "")
    (hmid : args.measurementId.getD "" = mid) (hmid0 : mid ≠ "")
    (hws : args.workspaceId.getD "" = wid) (hwid0 : wid ≠ "")
    (htr : api.triggersList aid cid wid = .ok tresp) :
    ((∀ t ∈ tresp.trigger.getD [], t.type ≠ some "pageview") →
      link_ga4 api tc args =
        (.ok "‚ùå Could not find \x27All Pages\x27 trigger. Create a pageview trigger first.",
         [.api (.triggersList aid cid wid)])) ∧
    (∀ t0 tid tag,
      (tresp.trigger.getD []).find? (fun t => t.type == some "pageview") = some t0 →
      t0.triggerId = some tid → tid ≠ "" →
      api.tagsCreate aid cid wid
        ⟨"GA4 Configuration", "gaawe", [⟨"measurementId", "template", mid⟩], [tid]⟩ = .ok tag →
      link_ga4 api tc args =
        (.ok ("‚úÖ Created GA4 configuration tag: " ++ pyOpt tag.name ++ " (ID: " ++ pyOpt tag.tagId
              ++ ")\n\nGA4 is now linked to GTM. Create a version and publish to make it live."),
         [.api (.triggersList aid cid wid),
          .api (.tagsCreate aid cid wid
            ⟨"GA4 Configuration", "gaawe", [⟨"measurementId", "template", mid⟩], [tid]⟩)])) := by
  have hr := resolveWs_given api aid cid wid hwid0
  constructor
  · intro hno
    have hfind : (tresp.trigger.getD []).find? (fun t => t.type == some "pageview") = none := by
      rw [List.find?_eq_none]
      intro x hx
      simpa using hno x hx
    simp [link_ga4, hconf, haid, hcid, hmid, hws, haid0, hcid0, hmid0, hr, htr, hfind]
  · intro t0 tid tag hfind htid htid0 hcreate
    simp [link_ga4, hconf, haid, hcid, hmid, hws, haid0, hcid0, hmid0, hr, htr, hfind,
      htid, htid0, hcreate]

theorem c9_link_ga4_pageview_witness :
    apiOk.triggersList "1" "2" "10" = .ok ⟨some [⟨some "All Pages", some "21", some "pageview"⟩]⟩ ∧
    link_ga4 apiOk ⟨true⟩ { argsFull with workspaceId := some "10" } =
      (.ok ("‚úÖ Created GA4 configuration tag: GA4 Configuration (ID: 12)"
            ++ "\n\nGA4 is now linked to GTM. Create a version and publish to make it live."),
       [.api (.triggersList "1" "2" "10"),
        .api (.tagsCreate "1" "2" "10"
          ⟨"GA4 Configuration", "gaawe", [⟨"measurementId", "template", "G-XXXXXXXXXX"⟩], ["21"]⟩)]) :=
  ⟨rfl, by
    have h := (c9_link_ga4_pageview apiOk ⟨true⟩ { argsFull with workspaceId := some "10" }
        "1" "2" "G-XXXXXXXXXX" "10" ⟨some [⟨some "All Pages", some "21", some "pageview"⟩]⟩
        rfl rfl (by decide) rfl (by decide) rfl (by decide) rfl (by decide) rfl).2
      ⟨some "All Pages", some "21", some "pageview"⟩ "21"
      ⟨some "GA4 Configuration", some "12", some "gaawe"⟩
      (by decide) rfl (by decide) rfl
    simpa using h⟩


/-- C5: every GTM operation taking an optional workspace id (listTags,
createTag, listTriggers, createTrigger, listVariables, createVariable,
createVersion, linkGA4) resolves an omitted or empty workspace id by calling
the workspace-listing endpoint exactly once for the given account and
container and using the first workspace of the response for its own API
call, and does not call the workspace-listing endpoint at all when a
workspace id is supplied; resolution is per call, the adapter state holds no
workspace cache. -/
theorem c5_workspace_resolution (api : GtmApi) (tc : ToolCall)
    (hconf : tc.confirmed_by_human = true) :
    (∀ (args : GtmArgs) (aid cid w : String) (wr : WorkspacesResp),
      aid ≠ "" → cid ≠ "" →
      args.accountId.getD "" = aid → args.containerId.getD "" = cid →
      args.workspaceId.getD "" = "" →
      api.workspacesList aid cid = .ok wr → firstWorkspaceId wr = some w →
      (list_tags api args).2 = [.api (.workspacesList aid cid), .api (.tagsList aid cid w)]) ∧
    (∀ (args : GtmArgs) (aid cid wid : String),
      aid ≠ "" → cid ≠ "" → wid ≠ "" →
      args.accountId.getD "" = aid → args.containerId.getD "" = cid →
      args.workspaceId.getD "" = wid →
      (list_tags api args).2 = [.api (.tagsList aid cid wid)]) ∧
    (∀ (args : GtmArgs) (aid cid w : String) (wr : WorkspacesResp),
      aid ≠ "" → cid ≠ "" →
      args.accountId.getD "" = aid → args.containerId.getD "" = cid →
      args.workspaceId.getD "" = "" →
      api.workspacesList aid cid = .ok wr → firstWorkspaceId wr = some w →
      (list_triggers api args).2 = [.api (.workspacesList aid cid), .api (.triggersList aid cid w)]) ∧
    (∀ (args : GtmArgs) (aid cid wid : String),
      aid ≠ "" → cid ≠ "" → wid ≠ "" →
      args.accountId.getD "" = aid → args.containerId.getD "" = cid →
      args.workspaceId.getD "" = wid →
      (list_triggers api args).2 = [.api (.triggersList aid cid wid)]) ∧
    (∀ (args : GtmArgs) (aid cid w : String) (wr : WorkspacesResp),
      aid ≠ "" → cid ≠ "" →
      args.accountId.getD "" = aid → args.containerId.getD "" = cid →
      args.workspaceId.getD "" = "" →
      api.workspacesList aid cid = .ok wr → firstWorkspaceId wr = some w →
      (list_variables api args).2 = [.api (.workspacesList aid cid), .api (.variablesList aid cid w)]) ∧
    (∀ (args : GtmArgs) (aid cid wid : String),
      aid ≠ "" → cid ≠ "" → wid ≠ "" →
      args.accountId.getD "" = aid → args.containerId.getD "" = cid →
      args.workspaceId.getD "" = wid →
      (list_variables api args).2 = [.api (.variablesList aid cid wid)]) ∧
    (∀ (args : GtmArgs) (aid cid w : String) (wr : WorkspacesResp),
      aid ≠ "" → cid ≠ "" →
      args.tagName.getD "" ≠ "" → args.tagType.getD "" ≠ "" →
      args.accountId.getD "" = aid → args.containerId.getD "" = cid →
      args.workspaceId.getD "" = "" →
      api.workspacesList aid cid = .ok wr → firstWorkspaceId wr = some w →
      (create_tag api tc args).2 = [.api (.workspacesList aid cid), .api (.tagsCreate aid cid w ⟨args.tagName.getD "", args.tagType.getD "", args.parameters.getD [], args.firingTriggerId.getD []⟩)]) ∧
    (∀ (args : GtmArgs) (aid cid wid : String),
      aid ≠ "" → cid ≠ "" → wid ≠ "" →
      args.tagName.getD "" ≠ "" → args.tagType.getD "" ≠ "" →
      args.accountId.getD "" = aid → args.containerId.getD "" = cid →
      args.workspaceId.getD "" = wid →
      (create_tag api tc args).2 = [.api (.tagsCreate aid cid wid ⟨args.tagName.getD "", args.tagType.getD "", args.parameters.getD [], args.firingTriggerId.getD []⟩)]) ∧
    (∀ (args : GtmArgs) (aid cid w : String) (wr : WorkspacesResp),
      aid ≠ "" → cid ≠ "" →
      args.triggerName.getD "" ≠ "" → args.triggerType.getD "" ≠ "" →
      args.accountId.getD "" = aid → args.containerId.getD "" = cid →
      args.workspaceId.getD "" = "" →
      api.workspacesList aid cid = .ok wr → firstWorkspaceId wr = some w →
      (create_trigger api tc args).2 = [.api (.workspacesList aid cid), .api (.triggersCreate aid cid w ⟨args.triggerName.getD "", args.triggerType.getD "", args.filters.getD []⟩)]) ∧
    (∀ (args : GtmArgs) (aid cid wid : String),
      aid ≠ "" → cid ≠ "" → wid ≠ "" →
      args.triggerName.getD "" ≠ "" → args.triggerType.getD "" ≠ "" →
      args.accountId.getD "" = aid → args.containerId.getD "" = cid →
      args.workspaceId.getD "" = wid →
      (create_trigger api tc args).2 = [.api (.triggersCreate aid cid wid ⟨args.triggerName.getD "", args.triggerType.getD "", args.filters.getD []⟩)]) ∧
    (∀ (args : GtmArgs) (aid cid w : String) (wr : WorkspacesResp),
      aid ≠ "" → cid ≠ "" →
      args.variableName.getD "" ≠ "" → args.variableType.getD "" ≠ "" →
      args.accountId.getD "" = aid → args.containerId.getD "" = cid →
      args.workspaceId.getD "" = "" →
      api.workspacesList aid cid = .ok wr → firstWorkspaceId wr = some w →
      (create_variable api tc args).2 = [.api (.workspacesList aid cid), .api (.variablesCreate aid cid w ⟨args.variableName.getD "", args.variableType.getD "", if args.value.getD "" = "" then [] else [⟨"value", "template", args.value.getD ""⟩]⟩)]) ∧
    (∀ (args : GtmArgs) (aid cid wid : String),
      aid ≠ "" → cid ≠ "" → wid ≠ "" →
      args.variableName.getD "" ≠ "" → args.variableType.getD "" ≠ "" →
      args.accountId.getD "" = aid → args.containerId.getD "" = cid →
      args.workspaceId.getD "" = wid →
      (create_variable api tc args).2 = [.api (.variablesCreate aid cid wid ⟨args.variableName.getD "", args.variableType.getD "", if args.value.getD "" = "" then [] else [⟨"value", "template", args.value.getD ""⟩]⟩)]) ∧
    (∀ (args : GtmArgs) (aid cid w : String) (wr : WorkspacesResp),
      aid ≠ "" → cid ≠ "" →
      args.accountId.getD "" = aid → args.containerId.getD "" = cid →
      args.workspaceId.getD "" = "" →
      api.workspacesList aid cid = .ok wr → firstWorkspaceId wr = some w →
      (create_version api tc args).2 = [.api (.workspacesList aid cid), .api (.createVersion aid cid w ⟨args.versionName.getD "", args.versionNotes.getD ""⟩)]) ∧
    (∀ (args : GtmArgs) (aid cid wid : String),
      aid ≠ "" → cid ≠ "" → wid ≠ "" →
      args.accountId.getD "" = aid → args.containerId.getD "" = cid →
      args.workspaceId.getD "" = wid →
      (create_version api tc args).2 = [.api (.createVersion aid cid wid ⟨args.versionName.getD "", args.versionNotes.getD ""⟩)]) ∧
    (∀ (args : GtmArgs) (aid cid w : String) (wr : WorkspacesResp),
      aid ≠ "" → cid ≠ "" → args.measurementId.getD "" ≠ "" →
      args.accountId.getD "" = aid → args.containerId.getD "" = cid →
      args.workspaceId.getD "" = "" →
      api.workspacesList aid cid = .ok wr → firstWorkspaceId wr = some w →
      wsCount (link_ga4 api tc args).2 = 1 ∧
      (link_ga4 api tc args).2.take 2 = [.api (.workspacesList aid cid), .api (.triggersList aid cid w)]) ∧
    (∀ (args : GtmArgs) (aid cid wid : String),
      aid ≠ "" → cid ≠ "" → wid ≠ "" → args.measurementId.getD "" ≠ "" →
      args.accountId.getD "" = aid → args.containerId.getD "" = cid →
      args.workspaceId.getD "" = wid →
      wsCount (link_ga4 api tc args).2 = 0 ∧
      (link_ga4 api tc args).2.take 1 = [.api (.triggersList aid cid wid)]) := by
  refine ⟨?_, ?_, ?_, ?_, ?_, ?_, ?_, ?_, ?_, ?_, ?_, ?_, ?_, ?_, ?_, ?_⟩
  · intro args aid cid w wr ha0 hc0 haid hcid hw hws hfw
    have hr := resolveWs_omitted api aid cid wr w hws hfw
    cases h2 : api.tagsList aid cid w with
    | error e => simp [list_tags, haid, hcid, ha0, hc0, hw, hr, h2]
    | ok r => simp [list_tags, haid, hcid, ha0, hc0, hw, hr, h2, apply_ite]
  · intro args aid cid wid ha0 hc0 hwid0 haid hcid hw
    have hr := resolveWs_given api aid cid wid hwid0
    cases h2 : api.tagsList aid cid wid with
    | error e => simp [list_tags, haid, hcid, ha0, hc0, hw, hr, h2]
    | ok r => simp [list_tags, haid, hcid, ha0, hc0, hw, hr, h2, apply_ite]
  · intro args aid cid w wr ha0 hc0 haid hcid hw hws hfw
    have hr := resolveWs_omitted api aid cid wr w hws hfw
    cases h2 : api.triggersList aid cid w with
    | error e => simp [list_triggers, haid, hcid, ha0, hc0, hw, hr, h2]
    | ok r => simp [list_triggers, haid, hcid, ha0, hc0, hw, hr, h2, apply_ite]
  · intro args aid cid wid ha0 hc0 hwid0 haid hcid hw
    have hr := resolveWs_given api aid cid wid hwid0
    cases h2 : api.triggersList aid cid wid with
    | error e => simp [list_triggers, haid, hcid, ha0, hc0, hw, hr, h2]
    | ok r => simp [list_triggers, haid, hcid, ha0, hc0, hw, hr, h2, apply_ite]
  · intro args aid cid w wr ha0 hc0 haid hcid hw hws hfw
    have hr := resolveWs_omitted api aid cid wr w hws hfw
    cases h2 : api.variablesList aid cid w with
    | error e => simp [list_variables, haid, hcid, ha0, hc0, hw, hr, h2]
    | ok r => simp [list_variables, haid, hcid, ha0, hc0, hw, hr, h2, apply_ite]
  · intro args aid cid wid ha0 hc0 hwid0 haid hcid hw
    have hr := resolveWs_given api aid cid wid hwid0
    cases h2 : api.variablesList aid cid wid with
    | error e => simp [list_variables, haid, hcid, ha0, hc0, hw, hr, h2]
    | ok r => simp [list_variables, haid, hcid, ha0, hc0, hw, hr, h2, apply_ite]
  · intro args aid cid w wr ha0 hc0 hx1 hx2 haid hcid hw hws hfw
    have hr := resolveWs_omitted api aid cid wr w hws hfw
    cases h2 : api.tagsCreate aid cid w ⟨args.tagName.getD "", args.tagType.getD "", args.parameters.getD [], args.firingTriggerId.getD []⟩ with
    | error e => simp [create_tag, hconf, haid, hcid, ha0, hc0, hx1, hx2, hw, hr, h2]
    | ok r => simp [create_tag, hconf, haid, hcid, ha0, hc0, hx1, hx2, hw, hr, h2]
  · intro args aid cid wid ha0 hc0 hwid0 hx1 hx2 haid hcid hw
    have hr := resolveWs_given api aid cid wid hwid0
    cases h2 : api.tagsCreate aid cid wid ⟨args.tagName.getD "", args.tagType.getD "", args.parameters.getD [], args.firingTriggerId.getD []⟩ with
    | error e => simp [create_tag, hconf, haid, hcid, ha0, hc0, hx1, hx2, hw, hr, h2]
    | ok r => simp [create_tag, hconf, haid, hcid, ha0, hc0, hx1, hx2, hw, hr, h2]
  · intro args aid cid w wr ha0 hc0 hx1 hx2 haid hcid hw hws hfw
    have hr := resolveWs_omitted api aid cid wr w hws hfw
    cases h2 : api.triggersCreate aid cid w ⟨args.triggerName.getD "", args.triggerType.getD "", args.filters.getD []⟩ with
    | error e => simp [create_trigger, hconf, haid, hcid, ha0, hc0, hx1, hx2, hw, hr, h2]
    | ok r => simp [create_trigger, hconf, haid, hcid, ha0, hc0, hx1, hx2, hw, hr, h2]
  · intro args aid cid wid ha0 hc0 hwid0 hx1 hx2 haid hcid hw
    have hr := resolveWs_given api aid cid wid hwid0
    cases h2 : api.triggersCreate aid cid wid ⟨args.triggerName.getD "", args.triggerType.getD "", args.filters.getD []⟩ with
    | error e => simp [create_trigger, hconf, haid, hcid, ha0, hc0, hx1, hx2, hw, hr, h2]
    | ok r => simp [create_trigger, hconf, haid, hcid, ha0, hc0, hx1, hx2, hw, hr, h2]
  · intro args aid cid w wr ha0 hc0 hx1 hx2 haid hcid hw hws hfw
    have hr := resolveWs_omitted api aid cid wr w hws hfw
    cases h2 : api.variablesCreate aid cid w ⟨args.variableName.getD "", args.variableType.getD "", if args.value.getD "" = "" then [] else [⟨"value", "template", args.value.getD ""⟩]⟩ with
    | error e => simp [create_variable, hconf, haid, hcid, ha0, hc0, hx1, hx2, hw, hr, h2]
    | ok r => simp [create_variable, hconf, haid, hcid, ha0, hc0, hx1, hx2, hw, hr, h2]
  · intro args aid cid wid ha0 hc0 hwid0 hx1 hx2 haid hcid hw
    have hr := resolveWs_given api aid cid wid hwid0
    cases h2 : api.variablesCreate aid cid wid ⟨args.variableName.getD "", args.variableType.getD "", if args.value.getD "" = "" then [] else [⟨"value", "template", args.value.getD ""⟩]⟩ with
    | error e => simp [create_variable, hconf, haid, hcid, ha0, hc0, hx1, hx2, hw, hr, h2]
    | ok r => simp [create_variable, hconf, haid, hcid, ha0, hc0, hx1, hx2, hw, hr, h2]
  · intro args aid cid w wr ha0 hc0 haid hcid hw hws hfw
    have hr := resolveWs_omitted api aid cid wr w hws hfw
    cases h2 : api.createVersion aid cid w ⟨args.versionName.getD "", args.versionNotes.getD ""⟩ with
    | error e => simp [create_version, hconf, haid, hcid, ha0, hc0, hw, hr, h2]
    | ok r => simp [create_version, hconf, haid, hcid, ha0, hc0, hw, hr, h2]
  · intro args aid cid wid ha0 hc0 hwid0 haid hcid hw
    have hr := resolveWs_given api aid cid wid hwid0
    cases h2 : api.createVersion aid cid wid ⟨args.versionName.getD "", args.versionNotes.getD ""⟩ with
    | error e => simp [create_version, hconf, haid, hcid, ha0, hc0, hw, hr, h2]
    | ok r => simp [create_version, hconf, haid, hcid, ha0, hc0, hw, hr, h2]
  · intro args aid cid w wr ha0 hc0 hm0 haid hcid hw hws hfw
    have hr := resolveWs_omitted api aid cid wr w hws hfw
    cases h2 : api.triggersList aid cid w with
    | error e =>
      constructor <;>
        simp [link_ga4, hconf, haid, hcid, ha0, hc0, hm0, hw, hr, h2, wsCount, GtmEv.isWsList]
    | ok tr3 =>
      constructor <;>
      · simp only [link_ga4, hconf, haid, hcid, hw, hr, h2]
        simp [ha0, hc0, hm0]
        split
        · simp [wsCount, GtmEv.isWsList]
        · cases h3 : api.tagsCreate aid cid w _ with
          | error e => simp [h3, wsCount, GtmEv.isWsList]
          | ok tag => simp [h3, wsCount, GtmEv.isWsList]
  · intro args aid cid wid ha0 hc0 hwid0 hm0 haid hcid hw
    have hr := resolveWs_given api aid cid wid hwid0
    cases h2 : api.triggersList aid cid wid with
    | error e =>
      constructor <;>
        simp [link_ga4, hconf, haid, hcid, ha0, hc0, hm0, hw, hr, h2, wsCount, GtmEv.isWsList]
    | ok tr3 =>
      constructor <;>
      · simp only [link_ga4, hconf, haid, hcid, hw, hr, h2]
        simp [ha0, hc0, hm0]
        split
        · simp [wsCount, GtmEv.isWsList]
        · cases h3 : api.tagsCreate aid cid wid _ with
          | error e => simp [h3, wsCount, GtmEv.isWsList]
          | ok tag => simp [h3, wsCount, GtmEv.isWsList]


theorem c5_workspace_resolution_witness :
    (⟨true⟩ : ToolCall).confirmed_by_human = true ∧
    (list_tags apiOk argsFull).2 =
      [.api (.workspacesList "1" "2"), .api (.tagsList "1" "2" "7")] ∧
    (list_tags apiOk { argsFull with workspaceId := some "10" }).2 =
      [.api (.tagsList "1" "2" "10")] :=
  ⟨rfl,
   (c5_workspace_resolution apiOk ⟨true⟩ rfl).1 argsFull "1" "2" "7"
     ⟨some [⟨some "7"⟩, ⟨some "8"⟩]⟩ (by decide) (by decide) rfl rfl rfl rfl rfl,
   (c5_workspace_resolution apiOk ⟨true⟩ rfl).2.1 { argsFull with workspaceId := some "10" }
     "1" "2" "10" (by decide) (by decide) (by decide) rfl rfl rfl⟩

/-! ## Funnel output machinery -/

/-- Any member of a joined list occurs contiguously in the joined string. -/
theorem joinSep_mem_infix (sep : String) : ∀ (l : List String) (x : String), x ∈ l →
    ∃ p q : List Char, (joinSep sep l).data = p ++ x.data ++ q
  | [], x, hx => absurd hx (List.not_mem_nil x)
  | [a], x, hx => by
    simp only [List.mem_singleton] at hx
    subst hx
    exact ⟨[], [], by simp [joinSep]⟩
  | a :: b :: bs, x, hx => by
    rcases List.mem_cons.mp hx with rfl | hx2
    · exact ⟨[], (sep ++ joinSep sep (b :: bs)).data, by
        simp [joinSep, String.data_append, List.append_assoc]⟩
    · obtain ⟨p, q, hpq⟩ := joinSep_mem_infix sep (b :: bs) x hx2
      exact ⟨(a ++ sep).data ++ p, q, by
        simp [joinSep, String.data_append, hpq, List.append_assoc]⟩

/-- When every base report call succeeds, the funnel loop returns one output
line pair per step, issues exactly one report call per step, and the line of
the j-th step (0-based, enumerated from i) reads i+j. name (page). -/
theorem funnel_steps_loop_ok (env : GaEnv) (pid dr : String)
    (henv : ∀ r, ∃ s, env.getReport r = .ok s) :
    ∀ (i : Nat) (steps : List FStep), ∃ lines tr,
      funnel_steps_loop env pid dr i steps = (.ok lines, tr) ∧
      tr.length = steps.length ∧ (∀ ev ∈ tr, ev.isReport = true) ∧
      ∀ j (hj : j < steps.length),
        ("\n" ++ toString (i + j) ++ ". "
          ++ (steps.get ⟨j, hj⟩).name.getD ("Step " ++ toString (i + j))
          ++ " (" ++ (steps.get ⟨j, hj⟩).page.getD "" ++ ")") ∈ lines := by
  intro i steps
  induction steps generalizing i with
  | nil => exact ⟨[], [], rfl, rfl, by simp, by simp⟩
  | cons st rest ih =>
    obtain ⟨s0, hs0⟩ := henv { propertyId := pid, dateRange := dr, metrics := ["screenPageViews", "sessions"], dimensions := ["pagePath"] }
    obtain ⟨lines, tr, hloop, hlen, hrep, hmem⟩ := ih (i + 1)
    refine ⟨("\n" ++ toString i ++ ". " ++ st.name.getD ("Step " ++ toString i)
        ++ " (" ++ st.page.getD "" ++ ")") :: "   Users: [analyzing...]" :: lines,
      .report { propertyId := pid, dateRange := dr, metrics := ["screenPageViews", "sessions"], dimensions := ["pagePath"] } :: tr,
      ?_, ?_, ?_, ?_⟩
    · simp only [funnel_steps_loop, hs0, hloop]
    · simpa using hlen
    · intro ev hev
      rcases List.mem_cons.mp hev with rfl | hev2
      · rfl
      · exact hrep ev hev2
    · intro j hj
      cases j with
      | zero => simp
      | succ k =>
        have hk : k < rest.length := by simpa using hj
        have h := hmem k hk
        refine List.mem_cons_of_mem _ (List.mem_cons_of_mem _ ?_)
        have harith : i + 1 + k = i + (k + 1) := by omega
        simpa [harith] using h


/-- C7: getFunnelReport with a property id and n declared steps issues
exactly n base report calls (one per step, and nothing but report calls) and
returns a single string that contains, for each step j (1-based) with name N
and page P, the text j. N (P), followed by the disclaimer that full funnel
drop-off analysis is out of scope. -/
theorem c7_funnel_report (env : GaEnv) (args : GaArgs) (pid : String) (steps : List FStep)
    (hp : args.propertyId.getD "" = pid) (hp0 : pid ≠ "")
    (hst : args.funnelSteps = some steps) (hst0 : steps ≠ [])
    (henv : ∀ r, ∃ s, env.getReport r = .ok s) :
    ∃ out tr, get_funnel_report env args = (.ok out, tr) ∧
      tr.length = steps.length ∧
      (∀ ev ∈ tr, ev.isReport = true) ∧
      (∀ j (hj : j < steps.length), ∃ p q : List Char,
        out.data = p ++ (toString (j + 1) ++ ". "
          ++ (steps.get ⟨j, hj⟩).name.getD ("Step " ++ toString (j + 1))
          ++ " (" ++ (steps.get ⟨j, hj⟩).page.getD "" ++ ")").data ++ q) ∧
      (∃ p q : List Char, out.data =
        p ++ ("Note: Full funnel analysis with drop-off rates requires GA4 Funnel Exploration API.").data ++ q) := by
  obtain ⟨lines, tr, hloop, hlen, hrep, hmem⟩ :=
    funnel_steps_loop_ok env pid (args.dateRange.getD "last30days") henv 1 steps
  have hempty : steps.isEmpty = false := by
    cases steps
    · exact absurd rfl hst0
    · rfl
  have hnl : ("\n" : String).data = ['\n'] := rfl
  refine ⟨joinNl (("\u011F\u0178\u201C\u0160 Funnel Analysis:\n" :: lines) ++ ["\n\nNote: Full funnel analysis with drop-off rates requires GA4 Funnel Exploration API."]), tr, ?_, hlen, hrep, ?_, ?_⟩
  · simp [get_funnel_report, hp, hp0, hst, hempty, hloop]
  · intro j hj
    have h := hmem j hj
    have hin : ("\n" ++ toString (1 + j) ++ ". "
        ++ (steps.get ⟨j, hj⟩).name.getD ("Step " ++ toString (1 + j))
        ++ " (" ++ (steps.get ⟨j, hj⟩).page.getD "" ++ ")") ∈
        ("\u011F\u0178\u201C\u0160 Funnel Analysis:\n" :: lines) ++ ["\n\nNote: Full funnel analysis with drop-off rates requires GA4 Funnel Exploration API."] :=
      List.mem_append_left _ (List.mem_cons_of_mem _ h)
    obtain ⟨p, q, hpq⟩ := joinSep_mem_infix "\n" _ _ hin
    refine ⟨p ++ [Char.ofNat 10], q, ?_⟩
    rw [show joinNl (("\u011F\u0178\u201C\u0160 Funnel Analysis:\n" :: lines) ++ ["\n\nNote: Full funnel analysis with drop-off rates requires GA4 Funnel Exploration API."]) = joinSep "\n" (("\u011F\u0178\u201C\u0160 Funnel Analysis:\n" :: lines) ++ ["\n\nNote: Full funnel analysis with drop-off rates requires GA4 Funnel Exploration API."]) from rfl, hpq]
    simp [String.data_append, hnl, List.append_assoc, Nat.add_comm]
  · have hin : ("\n\nNote: Full funnel analysis with drop-off rates requires GA4 Funnel Exploration API.") ∈ ("\u011F\u0178\u201C\u0160 Funnel Analysis:\n" :: lines) ++ ["\n\nNote: Full funnel analysis with drop-off rates requires GA4 Funnel Exploration API."] := by simp
    obtain ⟨p, q, hpq⟩ := joinSep_mem_infix "\n" _ _ hin
    refine ⟨p ++ [Char.ofNat 10, Char.ofNat 10], q, ?_⟩
    rw [show joinNl (("\u011F\u0178\u201C\u0160 Funnel Analysis:\n" :: lines) ++ ["\n\nNote: Full funnel analysis with drop-off rates requires GA4 Funnel Exploration API."]) = joinSep "\n" (("\u011F\u0178\u201C\u0160 Funnel Analysis:\n" :: lines) ++ ["\n\nNote: Full funnel analysis with drop-off rates requires GA4 Funnel Exploration API."]) from rfl, hpq]
    have hsplit : ("\n\nNote: Full funnel analysis with drop-off rates requires GA4 Funnel Exploration API." : String).data = [Char.ofNat 10, Char.ofNat 10] ++ ("Note: Full funnel analysis with drop-off rates requires GA4 Funnel Exploration API." : String).data := rfl
    rw [hsplit]
    simp [List.append_assoc]

theorem c7_funnel_report_witness :
    gaArgsW.propertyId.getD "" = "1" ∧
    gaArgsW.funnelSteps = some [⟨some "Home", some "/"⟩] ∧
    (∃ out tr, get_funnel_report gaEnvOk gaArgsW = (.ok out, tr) ∧
      tr.length = ([⟨some "Home", some "/"⟩] : List FStep).length ∧
      (∀ ev ∈ tr, ev.isReport = true) ∧
      (∀ j (hj : j < ([⟨some "Home", some "/"⟩] : List FStep).length), ∃ p q : List Char,
        out.data = p ++ (toString (j + 1) ++ ". "
          ++ (([⟨some "Home", some "/"⟩] : List FStep).get ⟨j, hj⟩).name.getD ("Step " ++ toString (j + 1))
          ++ " (" ++ (([⟨some "Home", some "/"⟩] : List FStep).get ⟨j, hj⟩).page.getD "" ++ ")").data ++ q) ∧
      (∃ p q : List Char, out.data =
        p ++ ("Note: Full funnel analysis with drop-off rates requires GA4 Funnel Exploration API.").data ++ q)) :=
  ⟨rfl, rfl,
   c7_funnel_report gaEnvOk gaArgsW "1" [⟨some "Home", some "/"⟩]
     rfl (by decide) rfl (by decide) (fun r => ⟨_, rfl⟩)⟩

end MetricMaster
